import Mathlib

/-!
Formal model of the adaptive fetch orchestration layer of the miyami
websearch service (`src/search_api/main.py`).

The Python module drives web retrieval through a stealth-escalation state
machine (`advanced_fetch`), a concurrent fan-out over search results
(`search_and_fetch`, `deep_research`), a disk cache keyed by request
parameters, and eager parameter validation on every endpoint.

External collaborators (per the design document these are outside the core):
the SearXNG search backend, the `stealth_client` HTTP client, the `antibot`
protection classifier, the trafilatura/readability extraction engines, the
reranker and the `diskcache` store.  They are modelled as oracle values and
functions supplied in a "world" record; all control flow, string building and
aggregation below is transcribed from `main.py` itself.
-/

namespace Miyami

/-- Stealth levels, ordered `off < low < medium < high` (the `StealthLevel`
enum of `stealth_client`, per the design document section 3). -/
inductive StealthLevel where
  | off
  | low
  | medium
  | high
  deriving DecidableEq, Repr

/-- Numeric rank of a stealth level, used to state monotonicity. -/
def StealthLevel.toNat : StealthLevel → Nat
  | .off => 0
  | .low => 1
  | .medium => 2
  | .high => 3

/-- Model of Python `str.lower()` (ASCII case folding, which is all the
call sites compare against). -/
def py_lower (s : String) : String := ⟨s.data.map Char.toLower⟩

/-- Parse of the `stealth_mode` query string into a stealth level, mirroring
`StealthLevel(stealth_mode.lower())` (a `ValueError` on anything else). -/
def stealthLevelOfString : String → Option StealthLevel
  | "off" => some .off
  | "low" => some .low
  | "medium" => some .medium
  | "high" => some .high
  | _ => none

/-- Verdict returned by the external `antibot.detect_protection` classifier. -/
structure Verdict where
  is_protected : Bool
  is_blocked : Bool
  protections : List String
  confidence : Nat
  recommendation : String
  deriving DecidableEq, Repr

/-- Raw HTTP response as produced by the stealth client or httpx. -/
structure FetchResp where
  text : String
  status_code : Nat
  url : String
  deriving DecidableEq, Repr

/-- One fetch attempt performed by `advanced_fetch`: either the standard
httpx retrieval or a stealth-client retrieval at a given level. -/
inductive FetchKind where
  | standard
  | stealth (lvl : StealthLevel)
  deriving DecidableEq, Repr

/-- The `protection_info` dict built by `advanced_fetch`.  The Python dict
receives the keys `bypassed` / `bypass_method` only when a bypass succeeds,
so those are `Option` fields with `none` meaning "key absent". -/
structure ProtectionInfo where
  detected : Bool
  is_blocked : Bool
  protections : List String
  confidence : Nat
  recommendation : String
  bypassed : Option Bool
  bypass_method : Option String
  deriving DecidableEq, Repr

/-- The dict returned by `advanced_fetch`. -/
structure AdvancedFetchResult where
  html : String
  status_code : Nat
  final_url : String
  fetch_method : String
  protection_info : Option ProtectionInfo
  deriving DecidableEq, Repr

/-- Exceptions escaping `advanced_fetch`: an `HTTPException` (status 503 when
the stealth fetch raises) or a transport error from the standard httpx path
(`raise_for_status` / connection errors propagate to the caller). -/
inductive AdvFetchError where
  | httpException (status : Nat) (detail : String)
  | transport (msg : String)
  deriving DecidableEq, Repr

/-- Mutable local state of one `advanced_fetch` run: the variables
`html`, `status_code`, `final_url`, `fetch_method`. -/
structure AFState where
  html : String
  status_code : Nat
  final_url : String
  fetch_method : String
  deriving DecidableEq, Repr

/-- Step 1 of `advanced_fetch` (main.py lines 66-97): the initial retrieval,
standard for `stealth_mode="off"`, stealth otherwise.  Also records which
fetch attempt was performed. -/
def af_step1 (url stealth_mode : String)
    (standardFetch : String → Except String FetchResp)
    (stealthFetch : String → StealthLevel → Except String FetchResp) :
    Except AdvFetchError (AFState × FetchKind) :=
  if stealth_mode ≠ "off" then
    match stealthLevelOfString (py_lower stealth_mode) with
    | none => .error (.httpException 503 "Stealth fetch failed: invalid stealth level")
    | some lvl =>
      match stealthFetch url lvl with
      | .error m => .error (.httpException 503 ("Stealth fetch failed: " ++ m))
      | .ok r =>
        .ok ({ html := r.text, status_code := r.status_code, final_url := r.url,
               fetch_method := "stealth_" ++ stealth_mode }, .stealth lvl)
  else
    match standardFetch url with
    | .error m => .error (.transport m)
    | .ok r =>
      .ok ({ html := r.text, status_code := r.status_code, final_url := r.url,
             fetch_method := "standard" }, .standard)

/-- The medium-stealth auto-bypass attempt (main.py lines 112-128).  The
state and protection info are updated only when the re-fetched page is
classified not blocked; a raised exception or a still-blocked page leaves
them untouched (`except: pass`). -/
def af_try_medium (url : String)
    (stealthFetch : String → StealthLevel → Except String FetchResp)
    (dp : String → Verdict) (st : AFState) (pinfo : ProtectionInfo) :
    AFState × ProtectionInfo :=
  match stealthFetch url .medium with
  | .error _ => (st, pinfo)
  | .ok r =>
    if (dp r.text).is_blocked then (st, pinfo)
    else ({ html := r.text, status_code := r.status_code, final_url := r.url,
            fetch_method := "stealth_medium_auto" },
          { pinfo with bypassed := some true, bypass_method := some "stealth_medium" })

/-- The high-stealth auto-bypass attempt (main.py lines 131-146), with the
same update discipline as `af_try_medium`. -/
def af_try_high (url : String)
    (stealthFetch : String → StealthLevel → Except String FetchResp)
    (dp : String → Verdict) (st : AFState) (pinfo : ProtectionInfo) :
    AFState × ProtectionInfo :=
  match stealthFetch url .high with
  | .error _ => (st, pinfo)
  | .ok r =>
    if (dp r.text).is_blocked then (st, pinfo)
    else ({ html := r.text, status_code := r.status_code, final_url := r.url,
            fetch_method := "stealth_high_auto" },
          { pinfo with bypassed := some true, bypass_method := some "stealth_high" })

/-- The auto-bypass escalation block of `advanced_fetch` (main.py lines
111-146), entered when the original page is classified blocked and
`auto_bypass` is set.  A medium attempt runs when the method so far is
`standard` or `stealth_low`; a high attempt runs afterwards unless the
method has become `stealth_high` or `stealth_medium_auto`.  (The source
re-tests `protection.is_blocked` of the original verdict before the high
attempt, which is invariantly true inside this block.)  The returned list
records the stealth attempts actually performed. -/
def af_escalate (url : String)
    (stealthFetch : String → StealthLevel → Except String FetchResp)
    (dp : String → Verdict) (st : AFState) (pinfo : ProtectionInfo) :
    AFState × ProtectionInfo × List FetchKind :=
  if st.fetch_method = "standard" ∨ st.fetch_method = "stealth_low" then
    let sp := af_try_medium url stealthFetch dp st pinfo
    if sp.1.fetch_method ≠ "stealth_high" ∧ sp.1.fetch_method ≠ "stealth_medium_auto" then
      let sp2 := af_try_high url stealthFetch dp sp.1 sp.2
      (sp2.1, sp2.2, [FetchKind.stealth .medium, FetchKind.stealth .high])
    else (sp.1, sp.2, [FetchKind.stealth .medium])
  else
    if st.fetch_method ≠ "stealth_high" ∧ st.fetch_method ≠ "stealth_medium_auto" then
      let sp2 := af_try_high url stealthFetch dp st pinfo
      (sp2.1, sp2.2, [FetchKind.stealth .high])
    else (st, pinfo, [])

/-- Builds the initial `protection_info` dict (main.py lines 102-108). -/
def mk_protection_info (v : Verdict) : ProtectionInfo :=
  { detected := true, is_blocked := v.is_blocked, protections := v.protections,
    confidence := v.confidence, recommendation := v.recommendation,
    bypassed := none, bypass_method := none }

/-- Shallow embedding of `advanced_fetch` (main.py lines 46-154).  The
collaborating fetchers and the protection classifier are supplied as oracle
functions.  Besides the result dict, the model returns the ordered list of
fetch attempts performed, so that escalation bounds can be stated. -/
def advanced_fetch (url stealth_mode : String) (auto_bypass : Bool)
    (standardFetch : String → Except String FetchResp)
    (stealthFetch : String → StealthLevel → Except String FetchResp)
    (dp : String → Verdict) :
    Except AdvFetchError (AdvancedFetchResult × List FetchKind) :=
  match af_step1 url stealth_mode standardFetch stealthFetch with
  | .error e => .error e
  | .ok (st, k0) =>
    let protection := dp st.html
    if protection.is_protected then
      let pinfo := mk_protection_info protection
      if protection.is_blocked ∧ auto_bypass then
        let fin := af_escalate url stealthFetch dp st pinfo
        .ok ({ html := fin.1.html, status_code := fin.1.status_code,
               final_url := fin.1.final_url, fetch_method := fin.1.fetch_method,
               protection_info := some fin.2.1 }, k0 :: fin.2.2)
      else
        .ok ({ html := st.html, status_code := st.status_code,
               final_url := st.final_url, fetch_method := st.fetch_method,
               protection_info := some pinfo }, [k0])
    else
      .ok ({ html := st.html, status_code := st.status_code,
             final_url := st.final_url, fetch_method := st.fetch_method,
             protection_info := none }, [k0])

/-- The stealth level that a recorded `fetch_method` string corresponds to. -/
def method_level : String → Option StealthLevel
  | "standard" => some .off
  | "stealth_low" => some .low
  | "stealth_medium" => some .medium
  | "stealth_medium_auto" => some .medium
  | "stealth_high" => some .high
  | "stealth_high_auto" => some .high
  | _ => none

/-- When every page is classified blocked, the medium attempt changes nothing. -/
theorem af_try_medium_all_blocked (url : String)
    (stf : String → StealthLevel → Except String FetchResp)
    (dp : String → Verdict) (st : AFState) (pinfo : ProtectionInfo)
    (hb : ∀ h, (dp h).is_blocked = true) :
    af_try_medium url stf dp st pinfo = (st, pinfo) := by
  unfold af_try_medium
  cases stf url .medium with
  | error m => rfl
  | ok r => simp [hb r.text]

/-- When every page is classified blocked, the high attempt changes nothing. -/
theorem af_try_high_all_blocked (url : String)
    (stf : String → StealthLevel → Except String FetchResp)
    (dp : String → Verdict) (st : AFState) (pinfo : ProtectionInfo)
    (hb : ∀ h, (dp h).is_blocked = true) :
    af_try_high url stf dp st pinfo = (st, pinfo) := by
  unfold af_try_high
  cases stf url .high with
  | error m => rfl
  | ok r => simp [hb r.text]

/-- Behaviour of the escalation block when every page is classified blocked:
the state and protection info survive unchanged and the attempts performed
depend only on the method recorded so far. -/
theorem af_escalate_all_blocked (url : String)
    (stf : String → StealthLevel → Except String FetchResp)
    (dp : String → Verdict) (st : AFState) (pinfo : ProtectionInfo)
    (hb : ∀ h, (dp h).is_blocked = true) :
    af_escalate url stf dp st pinfo =
      if st.fetch_method = "standard" ∨ st.fetch_method = "stealth_low" then
        (st, pinfo, [FetchKind.stealth .medium, FetchKind.stealth .high])
      else if st.fetch_method ≠ "stealth_high" ∧ st.fetch_method ≠ "stealth_medium_auto" then
        (st, pinfo, [FetchKind.stealth .high])
      else (st, pinfo, []) := by
  unfold af_escalate
  rw [af_try_medium_all_blocked url stf dp st pinfo hb]
  by_cases h1 : st.fetch_method = "standard" ∨ st.fetch_method = "stealth_low"
  · have h2 : st.fetch_method ≠ "stealth_high" ∧ st.fetch_method ≠ "stealth_medium_auto" := by
      rcases h1 with h | h <;> rw [h] <;> exact ⟨by decide, by decide⟩
    simp only [h1, if_true, h2, and_self, if_pos,
      af_try_high_all_blocked url stf dp st pinfo hb]
    simp [h2]
  · simp only [h1, if_false]
    by_cases h2 : st.fetch_method ≠ "stealth_high" ∧ st.fetch_method ≠ "stealth_medium_auto"
    · simp [h1, h2, af_try_high_all_blocked url stf dp st pinfo hb]
    · simp [h1, h2]

/-- Evaluation of the initial fetch for `stealth_mode="off"`. -/
theorem af_step1_off (url : String) (sf : String → Except String FetchResp)
    (stf : String → StealthLevel → Except String FetchResp) :
    af_step1 url "off" sf stf =
      match sf url with
      | .error m => .error (.transport m)
      | .ok r =>
        .ok ({ html := r.text, status_code := r.status_code, final_url := r.url,
               fetch_method := "standard" }, .standard) := rfl

/-- Evaluation of the initial fetch for a stealth `stealth_mode`. -/
theorem af_step1_stealth (url sm : String) (lvl : StealthLevel)
    (sf : String → Except String FetchResp)
    (stf : String → StealthLevel → Except String FetchResp)
    (hne : sm ≠ "off") (hlvl : stealthLevelOfString (py_lower sm) = some lvl) :
    af_step1 url sm sf stf =
      match stf url lvl with
      | .error m => .error (.httpException 503 ("Stealth fetch failed: " ++ m))
      | .ok r =>
        .ok ({ html := r.text, status_code := r.status_code, final_url := r.url,
               fetch_method := "stealth_" ++ sm }, .stealth lvl) := by
  unfold af_step1
  rw [if_pos hne, hlvl]

/-- C1: for an `advanced_fetch` run with `auto_bypass=true` whose page is
classified blocked at every stealth level, the orchestrator performs at most
2 extra fetch attempts beyond the initial one (at most one at medium, then
at most one at high) and terminates, and the final `fetch_method` of the
outcome is at a stealth level greater than or equal to the initially
requested `stealth_mode`. -/
theorem c1_escalation_bounded_and_monotone (url sm : String)
    (sf : String → Except String FetchResp)
    (stf : String → StealthLevel → Except String FetchResp)
    (dp : String → Verdict)
    (hsm : sm = "off" ∨ sm = "low" ∨ sm = "medium" ∨ sm = "high")
    (hb : ∀ h, (dp h).is_blocked = true)
    (out : AdvancedFetchResult) (tr : List FetchKind)
    (hok : advanced_fetch url sm true sf stf dp = .ok (out, tr)) :
    (∃ k0 extras, tr = k0 :: extras ∧
      (extras = [] ∨ extras = [FetchKind.stealth .medium] ∨
       extras = [FetchKind.stealth .high] ∨
       extras = [FetchKind.stealth .medium, FetchKind.stealth .high])) ∧
    (∃ l0 l1, stealthLevelOfString sm = some l0 ∧
      method_level out.fetch_method = some l1 ∧ l0.toNat ≤ l1.toNat) := by
  unfold advanced_fetch at hok
  rcases hsm with h | h | h | h <;> subst h
  · rw [af_step1_off] at hok
    cases hsf : sf url with
    | error m => rw [hsf] at hok; cases hok
    | ok r =>
      rw [hsf] at hok
      dsimp only at hok
      rw [af_escalate_all_blocked url stf dp _ _ hb] at hok
      simp only [hb r.text] at hok
      by_cases hp : (dp r.text).is_protected <;>
        simp only [hp, Bool.false_eq_true, if_true, if_false, and_true, Except.ok.injEq,
          Prod.mk.injEq, reduceIte] at hok <;>
      · obtain ⟨ho, ht⟩ := hok
        subst ho; subst ht
        exact ⟨⟨_, _, rfl, by simp⟩, ⟨.off, .off, rfl, rfl, Nat.le_refl _⟩⟩
  · rw [af_step1_stealth url "low" .low sf stf (by decide) (by decide)] at hok
    cases hsf : stf url .low with
    | error m => rw [hsf] at hok; cases hok
    | ok r =>
      rw [hsf] at hok
      dsimp only at hok
      rw [af_escalate_all_blocked url stf dp _ _ hb] at hok
      simp only [hb r.text] at hok
      by_cases hp : (dp r.text).is_protected <;>
        simp only [hp, Bool.false_eq_true, if_true, if_false, and_true, Except.ok.injEq,
          Prod.mk.injEq, reduceIte] at hok <;>
      · obtain ⟨ho, ht⟩ := hok
        subst ho; subst ht
        exact ⟨⟨_, _, rfl, by simp⟩, ⟨.low, .low, rfl, rfl, Nat.le_refl _⟩⟩
  · rw [af_step1_stealth url "medium" .medium sf stf (by decide) (by decide)] at hok
    cases hsf : stf url .medium with
    | error m => rw [hsf] at hok; cases hok
    | ok r =>
      rw [hsf] at hok
      dsimp only at hok
      rw [af_escalate_all_blocked url stf dp _ _ hb] at hok
      simp only [hb r.text] at hok
      by_cases hp : (dp r.text).is_protected <;>
        simp only [hp, Bool.false_eq_true, if_true, if_false, and_true, Except.ok.injEq,
          Prod.mk.injEq, reduceIte] at hok <;>
      · obtain ⟨ho, ht⟩ := hok
        subst ho; subst ht
        exact ⟨⟨_, _, rfl, by simp⟩, ⟨.medium, .medium, rfl, rfl, Nat.le_refl _⟩⟩
  · rw [af_step1_stealth url "high" .high sf stf (by decide) (by decide)] at hok
    cases hsf : stf url .high with
    | error m => rw [hsf] at hok; cases hok
    | ok r =>
      rw [hsf] at hok
      dsimp only at hok
      rw [af_escalate_all_blocked url stf dp _ _ hb] at hok
      simp only [hb r.text] at hok
      by_cases hp : (dp r.text).is_protected <;>
        simp only [hp, Bool.false_eq_true, if_true, if_false, and_true, Except.ok.injEq,
          Prod.mk.injEq, reduceIte] at hok <;>
      · obtain ⟨ho, ht⟩ := hok
        subst ho; subst ht
        exact ⟨⟨_, _, rfl, by simp⟩, ⟨.high, .high, rfl, rfl, Nat.le_refl _⟩⟩

/-- Witness for C1: a concrete run requested at `low` whose page is blocked
at every level performs exactly the attempts low, medium, high and ends with
`fetch_method = "stealth_low"`. -/
theorem c1_escalation_bounded_and_monotone_witness :
    (∃ k0 extras,
      ([FetchKind.stealth .low, FetchKind.stealth .medium, FetchKind.stealth .high] :
        List FetchKind) = k0 :: extras ∧
      (extras = [] ∨ extras = [FetchKind.stealth .medium] ∨
       extras = [FetchKind.stealth .high] ∨
       extras = [FetchKind.stealth .medium, FetchKind.stealth .high])) ∧
    (∃ l0 l1, stealthLevelOfString "low" = some l0 ∧
      method_level (AdvancedFetchResult.fetch_method
        { html := "h", status_code := 200, final_url := "u",
          fetch_method := "stealth_low",
          protection_info := some
            { detected := true, is_blocked := true, protections := [],
              confidence := 1, recommendation := "r",
              bypassed := none, bypass_method := none } }) = some l1 ∧
      l0.toNat ≤ l1.toNat) :=
  c1_escalation_bounded_and_monotone "u" "low"
    (fun _ => .ok { text := "h", status_code := 200, url := "u" })
    (fun _ _ => .ok { text := "h", status_code := 200, url := "u" })
    (fun _ => { is_protected := true, is_blocked := true, protections := [],
                confidence := 1, recommendation := "r" })
    (Or.inr (Or.inl rfl)) (fun _ => rfl) _ _ rfl

/-- A fixed verdict of a hard-blocked page, used in concrete runs. -/
def blockedVerdict : Verdict :=
  { is_protected := true, is_blocked := true, protections := ["cloudflare"],
    confidence := 1, recommendation := "use stealth" }

/-- C2 counterexample: a run requested at `low`, blocked at every level.
The escalation tries medium and then high, both still blocked; the outcome
keeps the original content (`"h1"`, the body fetched at low) — as the claim
says — but the recorded `fetch_method` stays `"stealth_low"` instead of the
final method tried, and the `bypassed` key is never set at all (in
particular not to `false`). -/
theorem c2_counterexample :
    advanced_fetch "u" "low" true
      (fun _ => .ok { text := "h0", status_code := 200, url := "u" })
      (fun _ lvl => .ok { text := "h" ++ toString lvl.toNat, status_code := 200, url := "u" })
      (fun _ => blockedVerdict)
    = .ok ({ html := "h1", status_code := 200, final_url := "u",
             fetch_method := "stealth_low",
             protection_info := some (mk_protection_info blockedVerdict) },
           [FetchKind.stealth .low, FetchKind.stealth .medium, FetchKind.stealth .high]) ∧
    method_level "stealth_low" ≠ some StealthLevel.high ∧
    (mk_protection_info blockedVerdict).bypassed ≠ some false :=
  ⟨rfl, by decide, by decide⟩

/-- C2 amended: on escalation, a re-fetch classified not-blocked replaces the
content, records the escalated method and sets `bypassed=true` with the level
that succeeded; a run whose re-fetches all stay blocked keeps the original
content, keeps the ORIGINAL `fetch_method` (the final method tried is not
recorded) and leaves the `bypassed` key unset (it is never set to `false`). -/
theorem c2_amended (url sm : String)
    (sf : String → Except String FetchResp)
    (stf : String → StealthLevel → Except String FetchResp)
    (dp : String → Verdict) (st0 : AFState) (k0 : FetchKind)
    (h1 : af_step1 url sm sf stf = .ok (st0, k0))
    (hp : (dp st0.html).is_protected = true)
    (hbl : (dp st0.html).is_blocked = true) :
    (∀ r, (st0.fetch_method = "standard" ∨ st0.fetch_method = "stealth_low") →
      stf url .medium = .ok r → (dp r.text).is_blocked = false →
      advanced_fetch url sm true sf stf dp = .ok
        ({ html := r.text, status_code := r.status_code, final_url := r.url,
           fetch_method := "stealth_medium_auto",
           protection_info := some { mk_protection_info (dp st0.html) with
             bypassed := some true, bypass_method := some "stealth_medium" } },
         [k0, FetchKind.stealth .medium])) ∧
    (∀ r2, stf url .high = .ok r2 → (dp r2.text).is_blocked = false →
      (st0.fetch_method = "stealth_medium" →
        advanced_fetch url sm true sf stf dp = .ok
          ({ html := r2.text, status_code := r2.status_code, final_url := r2.url,
             fetch_method := "stealth_high_auto",
             protection_info := some { mk_protection_info (dp st0.html) with
               bypassed := some true, bypass_method := some "stealth_high" } },
           [k0, FetchKind.stealth .high])) ∧
      (∀ r1, (st0.fetch_method = "standard" ∨ st0.fetch_method = "stealth_low") →
        stf url .medium = .ok r1 → (dp r1.text).is_blocked = true →
        advanced_fetch url sm true sf stf dp = .ok
          ({ html := r2.text, status_code := r2.status_code, final_url := r2.url,
             fetch_method := "stealth_high_auto",
             protection_info := some { mk_protection_info (dp st0.html) with
               bypassed := some true, bypass_method := some "stealth_high" } },
           [k0, FetchKind.stealth .medium, FetchKind.stealth .high]))) ∧
    ((∀ h, (dp h).is_blocked = true) →
      ∃ extras, advanced_fetch url sm true sf stf dp = .ok
        ({ html := st0.html, status_code := st0.status_code,
           final_url := st0.final_url, fetch_method := st0.fetch_method,
           protection_info := some (mk_protection_info (dp st0.html)) },
         k0 :: extras)) := by
  unfold advanced_fetch
  rw [h1]
  dsimp only
  simp only [hp, hbl, if_true, true_and, and_true, reduceIte]
  refine ⟨?_, ?_, ?_⟩
  · intro r hm hstf hnb
    unfold af_escalate af_try_medium
    rw [if_pos hm, hstf]
    simp only [hnb, Bool.false_eq_true, if_false, reduceIte]
    rw [if_neg (by decide)]
  · intro r2 hstf2 hnb2
    constructor
    · intro hm
      unfold af_escalate af_try_high
      rw [if_neg (by rw [hm]; decide), if_pos (by rw [hm]; exact ⟨by decide, by decide⟩), hstf2]
      simp only [hnb2, Bool.false_eq_true, if_false, reduceIte]
    · intro r1 hm hstf1 hb1
      unfold af_escalate af_try_medium af_try_high
      rw [if_pos hm, hstf1]
      simp only [hb1, if_true, reduceIte]
      rw [if_pos (by rcases hm with h | h <;> rw [h] <;> exact ⟨by decide, by decide⟩), hstf2]
      simp only [hnb2, Bool.false_eq_true, if_false, reduceIte]
  · intro hb
    rw [af_escalate_all_blocked url stf dp _ _ hb]
    split
    · exact ⟨_, rfl⟩
    · split
      · exact ⟨_, rfl⟩
      · exact ⟨_, rfl⟩

/-- A verdict of an unprotected page. -/
def okVerdict : Verdict :=
  { is_protected := false, is_blocked := false, protections := [],
    confidence := 0, recommendation := "" }

/-- Standard fetch oracle used in concrete runs: body `"h0"`. -/
def sf_demo : String → Except String FetchResp :=
  fun _ => .ok { text := "h0", status_code := 200, url := "u" }

/-- Stealth fetch oracle used in concrete runs: body `"h<rank>"` at each level. -/
def stf_demo : String → StealthLevel → Except String FetchResp :=
  fun _ lvl => .ok { text := "h" ++ toString lvl.toNat, status_code := 200, url := "u" }

/-- Classifier oracle that clears exactly the body fetched at medium. -/
def dp_medium_ok : String → Verdict :=
  fun h => if h = "h2" then okVerdict else blockedVerdict

/-- Witness for C2 (amended): a concrete run requested at `low` whose medium
re-fetch comes back unblocked keeps the new content, records
`stealth_medium_auto` and sets `bypassed=true`. -/
theorem c2_amended_witness :
    advanced_fetch "u" "low" true sf_demo stf_demo dp_medium_ok = .ok
      ({ html := "h2", status_code := 200, final_url := "u",
         fetch_method := "stealth_medium_auto",
         protection_info := some { mk_protection_info (dp_medium_ok "h1") with
           bypassed := some true, bypass_method := some "stealth_medium" } },
       [FetchKind.stealth .low, FetchKind.stealth .medium]) :=
  (c2_amended "u" "low" sf_demo stf_demo dp_medium_ok
      { html := "h1", status_code := 200, final_url := "u", fetch_method := "stealth_low" }
      (.stealth .low) rfl rfl rfl).1
    { text := "h2", status_code := 200, url := "u" } (Or.inr rfl) rfl rfl

/-- C3 counterexample: a run requested at `off`, blocked everywhere with
`auto_bypass=true`, escalates directly to medium (then high); the level
`low` is never attempted, contradicting "a run started at off escalates
first to low". -/
theorem c3_counterexample :
    advanced_fetch "u" "off" true sf_demo stf_demo (fun _ => blockedVerdict)
    = .ok ({ html := "h0", status_code := 200, final_url := "u",
             fetch_method := "standard",
             protection_info := some (mk_protection_info blockedVerdict) },
           [FetchKind.standard, FetchKind.stealth .medium, FetchKind.stealth .high]) ∧
    FetchKind.stealth .low ∉
      [FetchKind.standard, FetchKind.stealth .medium, FetchKind.stealth .high] :=
  ⟨rfl, by decide⟩

/-- Attempts recorded by the escalation block when entered with method
`standard` or `stealth_low`: medium, then possibly high. -/
theorem af_escalate_trace_stdlow (url : String)
    (stf : String → StealthLevel → Except String FetchResp)
    (dp : String → Verdict) (st : AFState) (pinfo : ProtectionInfo)
    (h : st.fetch_method = "standard" ∨ st.fetch_method = "stealth_low") :
    (af_escalate url stf dp st pinfo).2.2 = [FetchKind.stealth .medium] ∨
    (af_escalate url stf dp st pinfo).2.2 =
      [FetchKind.stealth .medium, FetchKind.stealth .high] := by
  unfold af_escalate
  rw [if_pos h]
  dsimp only
  split
  · exact Or.inr rfl
  · exact Or.inl rfl

/-- Attempts recorded by the escalation block when entered with method
`stealth_medium`: exactly one, at high. -/
theorem af_escalate_trace_medium (url : String)
    (stf : String → StealthLevel → Except String FetchResp)
    (dp : String → Verdict) (st : AFState) (pinfo : ProtectionInfo)
    (h : st.fetch_method = "stealth_medium") :
    (af_escalate url stf dp st pinfo).2.2 = [FetchKind.stealth .high] := by
  unfold af_escalate
  rw [if_neg (by rw [h]; decide), if_pos (by rw [h]; exact ⟨by decide, by decide⟩)]

/-- Attempts recorded by the escalation block when entered with method
`stealth_high`: none. -/
theorem af_escalate_trace_high (url : String)
    (stf : String → StealthLevel → Except String FetchResp)
    (dp : String → Verdict) (st : AFState) (pinfo : ProtectionInfo)
    (h : st.fetch_method = "stealth_high") :
    (af_escalate url stf dp st pinfo).2.2 = [] := by
  unfold af_escalate
  rw [if_neg (by rw [h]; decide), if_neg (by rw [h]; decide)]

/-- When a blocked page triggers auto-bypass, `advanced_fetch` returns the
assembled escalation result and trace. -/
theorem c3_core (url sm : String)
    (sf : String → Except String FetchResp)
    (stf : String → StealthLevel → Except String FetchResp)
    (dp : String → Verdict) (st0 : AFState) (k0 : FetchKind)
    (h1 : af_step1 url sm sf stf = .ok (st0, k0))
    (hp : (dp st0.html).is_protected = true)
    (hbl : (dp st0.html).is_blocked = true) :
    advanced_fetch url sm true sf stf dp = .ok
      ({ html := (af_escalate url stf dp st0 (mk_protection_info (dp st0.html))).1.html,
         status_code := (af_escalate url stf dp st0 (mk_protection_info (dp st0.html))).1.status_code,
         final_url := (af_escalate url stf dp st0 (mk_protection_info (dp st0.html))).1.final_url,
         fetch_method := (af_escalate url stf dp st0 (mk_protection_info (dp st0.html))).1.fetch_method,
         protection_info := some (af_escalate url stf dp st0 (mk_protection_info (dp st0.html))).2.1 },
       k0 :: (af_escalate url stf dp st0 (mk_protection_info (dp st0.html))).2.2) := by
  unfold advanced_fetch
  rw [h1]
  dsimp only
  simp only [hp, hbl, if_true, true_and, and_true, reduceIte]

/-- C3 amended: whenever a page is classified blocked with `auto_bypass=true`
and the current level is below high, `advanced_fetch` escalates to medium
when the method so far is `standard` or `stealth_low` (a run started at off
escalates directly to medium, skipping low — `low` is never an escalation
target) and directly to high when already at `stealth_medium`. -/
theorem c3_amended (url sm : String)
    (sf : String → Except String FetchResp)
    (stf : String → StealthLevel → Except String FetchResp)
    (dp : String → Verdict) (st0 : AFState) (k0 : FetchKind)
    (hsm : sm = "off" ∨ sm = "low" ∨ sm = "medium" ∨ sm = "high")
    (h1 : af_step1 url sm sf stf = .ok (st0, k0))
    (hp : (dp st0.html).is_protected = true)
    (hbl : (dp st0.html).is_blocked = true) :
    ∃ out extras, advanced_fetch url sm true sf stf dp = .ok (out, k0 :: extras) ∧
      FetchKind.stealth .low ∉ extras ∧ FetchKind.standard ∉ extras ∧
      ((sm = "off" ∨ sm = "low") → extras.head? = some (FetchKind.stealth .medium)) ∧
      (sm = "medium" → extras = [FetchKind.stealth .high]) ∧
      (sm = "high" → extras = []) := by
  have hcore := c3_core url sm sf stf dp st0 k0 h1 hp hbl
  rcases hsm with h | h | h | h <;> subst h
  · -- "off": the initial state has method "standard"
    rw [af_step1_off] at h1
    cases hsf : sf url with
    | error m => rw [hsf] at h1; exact Except.noConfusion h1
    | ok r =>
      rw [hsf] at h1
      simp only [Except.ok.injEq, Prod.mk.injEq] at h1
      obtain ⟨hst, hk⟩ := h1
      have hm : st0.fetch_method = "standard" := by rw [← hst]
      rcases af_escalate_trace_stdlow url stf dp st0 (mk_protection_info (dp st0.html))
          (Or.inl hm) with hE | hE <;> rw [hE] at hcore
      · exact ⟨_, _, hcore, by decide, by decide, fun _ => rfl,
          fun hx => absurd hx (by decide), fun hx => absurd hx (by decide)⟩
      · exact ⟨_, _, hcore, by decide, by decide, fun _ => rfl,
          fun hx => absurd hx (by decide), fun hx => absurd hx (by decide)⟩
  · -- "low"
    rw [af_step1_stealth url "low" .low sf stf (by decide) (by decide)] at h1
    cases hsf : stf url .low with
    | error m => rw [hsf] at h1; exact Except.noConfusion h1
    | ok r =>
      rw [hsf] at h1
      simp only [Except.ok.injEq, Prod.mk.injEq] at h1
      obtain ⟨hst, hk⟩ := h1
      have hm : st0.fetch_method = "stealth_low" := by rw [← hst]; rfl
      rcases af_escalate_trace_stdlow url stf dp st0 (mk_protection_info (dp st0.html))
          (Or.inr hm) with hE | hE <;> rw [hE] at hcore
      · exact ⟨_, _, hcore, by decide, by decide, fun _ => rfl,
          fun hx => absurd hx (by decide), fun hx => absurd hx (by decide)⟩
      · exact ⟨_, _, hcore, by decide, by decide, fun _ => rfl,
          fun hx => absurd hx (by decide), fun hx => absurd hx (by decide)⟩
  · -- "medium"
    rw [af_step1_stealth url "medium" .medium sf stf (by decide) (by decide)] at h1
    cases hsf : stf url .medium with
    | error m => rw [hsf] at h1; exact Except.noConfusion h1
    | ok r =>
      rw [hsf] at h1
      simp only [Except.ok.injEq, Prod.mk.injEq] at h1
      obtain ⟨hst, hk⟩ := h1
      have hm : st0.fetch_method = "stealth_medium" := by rw [← hst]; rfl
      rw [af_escalate_trace_medium url stf dp st0 (mk_protection_info (dp st0.html)) hm]
        at hcore
      exact ⟨_, _, hcore, by decide, by decide,
        fun hx => by rcases hx with hx | hx <;> exact absurd hx (by decide),
        fun _ => rfl, fun hx => absurd hx (by decide)⟩
  · -- "high"
    rw [af_step1_stealth url "high" .high sf stf (by decide) (by decide)] at h1
    cases hsf : stf url .high with
    | error m => rw [hsf] at h1; exact Except.noConfusion h1
    | ok r =>
      rw [hsf] at h1
      simp only [Except.ok.injEq, Prod.mk.injEq] at h1
      obtain ⟨hst, hk⟩ := h1
      have hm : st0.fetch_method = "stealth_high" := by rw [← hst]; rfl
      rw [af_escalate_trace_high url stf dp st0 (mk_protection_info (dp st0.html)) hm]
        at hcore
      exact ⟨_, _, hcore, by decide, by decide,
        fun hx => by rcases hx with hx | hx <;> exact absurd hx (by decide),
        fun hx => absurd hx (by decide), fun _ => rfl⟩

/-- Witness for C3 (amended): the concrete blocked run at `off` escalates
first to medium and never attempts `low`. -/
theorem c3_amended_witness :
    ∃ out extras,
      advanced_fetch "u" "off" true sf_demo stf_demo (fun _ => blockedVerdict)
        = .ok (out, FetchKind.standard :: extras) ∧
      FetchKind.stealth .low ∉ extras ∧ FetchKind.standard ∉ extras ∧
      (("off" = "off" ∨ "off" = "low") → extras.head? = some (FetchKind.stealth .medium)) ∧
      ("off" = "medium" → extras = [FetchKind.stealth .high]) ∧
      ("off" = "high" → extras = []) :=
  c3_amended "u" "off" sf_demo stf_demo (fun _ => blockedVerdict)
    { html := "h0", status_code := 200, final_url := "u", fetch_method := "standard" }
    .standard (Or.inl rfl) rfl rfl rfl

/-! ## Endpoint infrastructure: exceptions, effects, Python string helpers -/

/-- Python exceptions relevant to the endpoint handlers. -/
inductive PyExc where
  | httpException (status : Nat) (detail : String)
  | httpxStatusError (status : Nat) (msg : String)
  | httpxRequestError (msg : String)
  | cacheError (msg : String)
  | otherError (msg : String)
  deriving DecidableEq, Repr

/-- Python `str(e)` as interpolated into handler detail strings.  For a
(fastapi/starlette) `HTTPException` this is `"{status_code}: {detail}"`. -/
def pyExcStr : PyExc → String
  | .httpException s d => toString s ++ ": " ++ d
  | .httpxStatusError _ m => m
  | .httpxRequestError m => m
  | .cacheError m => m
  | .otherError m => m

/-- Observable side effects of a handler, in program order. -/
inductive Effect where
  | cache_get (key : String)
  | cache_set (key : String)
  | network_search (query : String)
  | network_fetch (url : String)
  deriving DecidableEq, Repr

/-- HTTP status the FastAPI layer ultimately sends for a handler outcome:
200 for a returned response, the carried status for a raised
`HTTPException`, 500 for any unhandled exception. -/
def http_status {α : Type} : Except PyExc α → Nat
  | .ok _ => 200
  | .error (.httpException s _) => s
  | .error _ => 500

/-- Python `str(bool)` as produced inside f-strings. -/
def pyBool : Bool → String
  | true => "True"
  | false => "False"

/-- Python f-string rendering of an `Optional[str]`. -/
def pyOptStr : Option String → String
  | none => "None"
  | some s => s

/-- Model of Python `str.strip()`. -/
def py_strip (s : String) : String :=
  ⟨((s.data.dropWhile (fun c => c.isWhitespace)).reverse.dropWhile
      (fun c => c.isWhitespace)).reverse⟩

/-- Split of a character list on a separator character, `str.split` style:
the empty list yields one empty chunk, like `"".split(",") == [""]`. -/
def split_chars (sep : Char) : List Char → List (List Char)
  | [] => [[]]
  | c :: rest =>
    match split_chars sep rest with
    | [] => if c = sep then [[], []] else [[c]]
    | h :: t => if c = sep then [] :: h :: t else (c :: h) :: t

/-- Model of Python `str.split(sep)` for a one-character separator. -/
def py_split (sep : Char) (s : String) : List String :=
  (split_chars sep s.data).map (fun cs => ⟨cs⟩)

/-- The query-list parse of `/deep-research` (main.py line 853):
`[q.strip() for q in queries.split(",") if q.strip()]`. -/
def parse_query_list (queries : String) : List String :=
  ((py_split ',' queries).map py_strip).filter (fun q => q ≠ "")

/-- Code-point lexicographic order on strings, as Python compares `str`. -/
def str_lt (a b : String) : Prop := List.Lex (· < ·) a.data b.data

instance str_lt_dec : DecidableRel str_lt := fun a b =>
  inferInstanceAs (Decidable (List.Lex (· < ·) a.data b.data))

/-- The non-strict order used to model Python `sorted` on strings. -/
def py_str_le (a b : String) : Prop := ¬ str_lt b a

instance py_str_le_dec : DecidableRel py_str_le := fun a b =>
  inferInstanceAs (Decidable (¬ str_lt b a))

theorem String.data_inj {a b : String} (h : a.data = b.data) : a = b := by
  cases a; cases b; simp only at h; rw [h]

theorem lexLt_asymm : IsAsymm (List Char) (List.Lex (· < ·)) := inferInstance

theorem lexLt_trich : IsTrichotomous (List Char) (List.Lex (· < ·)) := inferInstance

theorem lexLt_trans : IsTrans (List Char) (List.Lex (· < ·)) := inferInstance

instance : IsTotal String py_str_le :=
  ⟨fun a b => by
    by_cases h : str_lt b a
    · exact Or.inr fun h2 => lexLt_asymm.asymm _ _ h h2
    · exact Or.inl h⟩

instance : IsTrans String py_str_le :=
  ⟨fun a b c hab hbc => by
    intro hca
    rcases lexLt_trich.trichotomous b.data c.data with h | h | h
    · exact hab (lexLt_trans.trans _ _ _ h hca)
    · exact hab (show str_lt b a by unfold str_lt; rw [h]; exact hca)
    · exact hbc h⟩

instance : IsAntisymm String py_str_le :=
  ⟨fun a b hab hba => by
    rcases lexLt_trich.trichotomous a.data b.data with h | h | h
    · exact absurd h hba
    · exact String.data_inj h
    · exact absurd h hab⟩

/-- Model of Python `sorted` on a list of strings. -/
def py_sorted (l : List String) : List String := List.insertionSort py_str_le l

/-- `sorted` is a function of the multiset of entries: permuted inputs give
the same sorted output. -/
theorem py_sorted_perm_eq (l1 l2 : List String) (h : List.Perm l1 l2) :
    py_sorted l1 = py_sorted l2 :=
  List.eq_of_perm_of_sorted
    ((List.perm_insertionSort _ l1).trans (h.trans (List.perm_insertionSort _ l2).symm))
    (List.sorted_insertionSort _ l1) (List.sorted_insertionSort _ l2)

/-! ## The fan-out executor: `asyncio.gather`

`asyncio.gather` runs one task per input position; the tasks complete in an
arbitrary interleaving but each task's result is stored at the task's own
position, and the positional array is returned once every task has finished.
The completion interleaving is modelled by an explicit schedule: a list of
task indices in completion order, a permutation of `0..n-1`. -/

/-- Positional collection: each scheduled index stores its task's value at
its own slot of the accumulator. -/
def gatherExec {β : Type} (tasks : List β) (sched : List Nat) (acc : List (Option β)) :
    List (Option β) :=
  match sched with
  | [] => acc
  | i :: rest =>
    match tasks[i]? with
    | some t => gatherExec tasks rest (acc.set i (some t))
    | none => gatherExec tasks rest acc

/-- The result list of `asyncio.gather` for a given completion schedule. -/
def asyncio_gather {β : Type} (d : β) (tasks : List β) (sched : List Nat) : List β :=
  (gatherExec tasks sched (List.replicate tasks.length none)).map (fun o => o.getD d)

theorem gatherExec_getElem {β : Type} (tasks : List β) (sched : List Nat)
    (acc : List (Option β)) (hlen : acc.length = tasks.length) (j : Nat) :
    (gatherExec tasks sched acc)[j]? =
      if j ∈ sched ∧ j < tasks.length then (tasks[j]?).map some else acc[j]? := by
  induction sched generalizing acc with
  | nil => simp [gatherExec]
  | cons i rest ih =>
    unfold gatherExec
    cases hti : tasks[i]? with
    | some t =>
      rw [ih _ (by rw [List.length_set]; exact hlen)]
      by_cases hj : j ∈ rest ∧ j < tasks.length
      · rw [if_pos hj, if_pos ⟨List.mem_cons_of_mem i hj.1, hj.2⟩]
      · by_cases hj2 : j = i ∧ j < tasks.length
        · rw [if_neg hj, if_pos ⟨by rw [hj2.1]; exact List.mem_cons_self i rest, hj2.2⟩]
          rw [hj2.1, List.getElem?_set_self (by rw [hlen]; exact hj2.1 ▸ hj2.2), hti]
          rfl
        · rw [if_neg hj, if_neg (by
            rintro ⟨hm, hlt⟩
            rcases List.mem_cons.mp hm with he | hm2
            · exact hj2 ⟨he, hlt⟩
            · exact hj ⟨hm2, hlt⟩)]
          have hne : i ≠ j := by
            intro he
            have hlt : i < tasks.length := by
              by_contra hge
              rw [List.getElem?_eq_none (by omega)] at hti
              cases hti
            exact hj2 ⟨he.symm, he ▸ hlt⟩
          rw [List.getElem?_set_ne hne]
    | none =>
      rw [ih _ hlen]
      have hge : ¬ i < tasks.length := by
        intro hlt
        rw [List.getElem?_eq_getElem hlt] at hti
        cases hti
      by_cases hj : j ∈ rest ∧ j < tasks.length
      · rw [if_pos hj, if_pos ⟨List.mem_cons_of_mem i hj.1, hj.2⟩]
      · rw [if_neg hj, if_neg (by
          rintro ⟨hm, hlt⟩
          rcases List.mem_cons.mp hm with he | hm2
          · exact hge (he ▸ hlt)
          · exact hj ⟨hm2, hlt⟩)]

/-- Order-independence of the fan-out executor: whenever the schedule is a
permutation of the task indices, the gathered list is exactly the task list
— one entry per task, in input position order, whatever the completion
order was. -/
theorem asyncio_gather_perm {β : Type} (d : β) (tasks : List β) (sched : List Nat)
    (hp : List.Perm sched (List.range tasks.length)) :
    asyncio_gather d tasks sched = tasks := by
  have hmem : ∀ j, j ∈ sched ↔ j < tasks.length := by
    intro j
    rw [hp.mem_iff, List.mem_range]
  apply List.ext_getElem?
  intro j
  unfold asyncio_gather
  rw [List.getElem?_map,
    gatherExec_getElem tasks sched _ (by rw [List.length_replicate]) j]
  by_cases hj : j < tasks.length
  · rw [if_pos ⟨(hmem j).mpr hj, hj⟩, List.getElem?_eq_getElem hj]
    rfl
  · rw [if_neg (by rintro ⟨hm, hlt⟩; exact hj hlt), List.getElem?_replicate,
      if_neg hj, List.getElem?_eq_none (by omega)]
    rfl

/-! ## Request/response data model of the HTTP endpoints -/

/-- One cleaned search result as produced by the SearXNG backend wrapper. -/
structure SearchResult where
  title : String
  url : String
  content : String
  engine : String
  score : Nat
  deriving DecidableEq, Repr

/-- Parsed JSON of one SearXNG `/search` response. -/
structure SearchData where
  results : List SearchResult
  suggestions : List String
  number_of_results : Nat
  deriving DecidableEq, Repr

/-- Parsed JSON of one trafilatura extraction (`output_format="json"`,
`with_metadata=True`); `markdown` holds the result of the second
trafilatura call used for markdown output, `none` when that call returns
nothing. -/
structure Extracted where
  title : Option String
  author : Option String
  date : Option String
  sitename : Option String
  text : String
  raw_text : Option String
  markdown : Option String
  deriving DecidableEq, Repr

/-- World of one fan-out target: the URL-parse verdict and the external
collaborators consulted by its pipeline. -/
structure TargetWorld where
  url_valid : Bool
  standardFetch : String → Except String FetchResp
  stealthFetch : String → StealthLevel → Except String FetchResp
  dp : String → Verdict
  extract : Except PyExc (Option Extracted)
  fallback_title : String
  fallback_content : String

/-- The reshaped `search_result` sub-dict of a successful fetch entry. -/
structure EntrySearchResult where
  title : String
  url : String
  snippet : String
  engine : String
  score : Nat
  deriving DecidableEq, Repr

/-- The `fetched_content` sub-dict of a successful fetch entry. -/
structure FetchedContent where
  title : String
  author : String
  date : String
  sitename : String
  content : String
  word_count : Nat
  format : String
  deriving DecidableEq, Repr

/-- One element of the `results` list of `/search-and-fetch`.  Error entries
carry the raw search result dict; that dict holds the same five fields, so
both shapes are represented by `EntrySearchResult` (error entries keep the
original result URL). -/
structure FetchEntry where
  search_result : EntrySearchResult
  fetch_status : String
  fetch_method : Option String
  fetch_error : Option String
  fetched_content : Option FetchedContent
  protection_info : Option ProtectionInfo
  deriving DecidableEq, Repr

/-- Content-length cap applied by the endpoints (`[:max] + marker`). -/
def truncate_content (maxLen : Nat) (s : String) : String :=
  if s.length > maxLen then s.take maxLen ++ "\n\n... [truncated]" else s

/-- Python `len(content.split())`. -/
def word_count (s : String) : Nat :=
  ((s.split (fun c => c.isWhitespace)).filter (fun w => w ≠ "")).length

/-- The error entry produced inside `fetch_single_url` (main.py lines
646-651, 769-782). -/
def error_entry (result : SearchResult) (msg : String) : FetchEntry :=
  { search_result :=
      { title := result.title, url := result.url, snippet := result.content,
        engine := result.engine, score := result.score },
    fetch_status := "error", fetch_method := none, fetch_error := some msg,
    fetched_content := none, protection_info := none }

/-- Content chosen per requested format from a trafilatura extraction
(main.py lines 681-693). -/
def pick_content (format : String) (d : Extracted) : String :=
  if format = "markdown" then (d.markdown).getD d.text
  else if format = "html" then (d.raw_text).getD d.text
  else d.text

/-- Shallow embedding of `fetch_single_url` (main.py lines 639-782): the
per-target pipeline of the `/search-and-fetch` fan-out.  Total: every
exception of the pipeline is converted into an `"error"` entry
(`except HTTPException` keeps the detail, `except Exception` wraps it in
`"Processing error: "`); URL validation precedes any fetch. -/
def fetch_single_url (stealth_mode : String) (auto_bypass : Bool) (format : String)
    (max_content_length : Nat) (result : SearchResult) (tw : TargetWorld) : FetchEntry :=
  if ¬ tw.url_valid then error_entry result "Invalid URL format"
  else
    match advanced_fetch result.url stealth_mode auto_bypass
        tw.standardFetch tw.stealthFetch tw.dp with
    | .error (.httpException _ d) => error_entry result d
    | .error (.transport m) => error_entry result ("Processing error: " ++ m)
    | .ok (fr, _) =>
      match tw.extract with
      | .error (.httpException _ d) => error_entry result d
      | .error e => error_entry result ("Processing error: " ++ pyExcStr e)
      | .ok (some d) =>
        let content := truncate_content max_content_length (pick_content format d)
        { search_result :=
            { title := result.title, url := fr.final_url,
              snippet := result.content, engine := result.engine, score := result.score },
          fetch_status := "success", fetch_method := some fr.fetch_method,
          fetch_error := none,
          fetched_content := some
            { title := (d.title).getD result.title,
              author := (d.author).getD "", date := (d.date).getD "",
              sitename := (d.sitename).getD "", content := content,
              word_count := word_count content, format := format },
          protection_info := fr.protection_info }
      | .ok none =>
        let content := truncate_content max_content_length tw.fallback_content
        { search_result :=
            { title := result.title, url := fr.final_url,
              snippet := result.content, engine := result.engine, score := result.score },
          fetch_status := "success", fetch_method := some fr.fetch_method,
          fetch_error := none,
          fetched_content := some
            { title := tw.fallback_title, author := "",
              date := "", sitename := "", content := content,
              word_count := word_count content, format := format },
          protection_info := fr.protection_info }

/-- Request parameters of `/search-and-fetch` (main.py lines 542-553). -/
structure SFRequest where
  query : String
  num_results : Nat
  categories : Option String
  language : Option String
  format : String
  max_content_length : Nat
  time_range : Option String
  rerank : Bool
  stealth_mode : String
  auto_bypass : Bool
  deriving DecidableEq, Repr

/-- The cache key built at main.py line 579.  Note which parameters are
absent: `auto_bypass` and `max_content_length` are not interpolated. -/
def search_fetch_cache_key (r : SFRequest) : String :=
  "search_fetch:" ++ r.query ++ ":" ++ toString r.num_results ++ ":" ++
    pyOptStr r.categories ++ ":" ++ pyOptStr r.language ++ ":" ++ r.format ++ ":" ++
    pyOptStr r.time_range ++ ":" ++ pyBool r.rerank ++ ":" ++ r.stealth_mode

/-- Response of `/search-and-fetch`.  The zero-result early return carries
only query / count / results / message keys; it is represented with zeroed
counts and a `some` message. -/
structure SFResponse where
  query : String
  num_results_requested : Nat
  num_results_found : Nat
  successful_fetches : Nat
  failed_fetches : Nat
  stealth_mode : String
  auto_bypass : Bool
  results : List FetchEntry
  suggestions : List String
  message : Option String
  deriving DecidableEq, Repr

/-- World of one `/search-and-fetch` request. -/
structure SFWorld where
  cacheGet : Except PyExc (Option SFResponse)
  cacheSet : Except PyExc Unit
  searchBackend : Except PyExc SearchData
  rerankFn : List SearchResult → List SearchResult
  target : Nat → TargetWorld
  sched : List Nat

/-- The `time_range` check shared by `/search-api` and `/search-and-fetch`
(true means the 400 branch is taken). -/
def tr_check : Option String → Bool
  | none => false
  | some t => ! (["day", "week", "month", "year"].contains (py_lower t))

/-- The detail string of the `time_range` 400. -/
def invalid_tr_detail : String :=
  "Invalid time_range. Must be one of: day, week, month, year"

/-- The stealth-mode membership test used by the endpoints (true = valid). -/
def stealth_mode_valid (sm : String) : Bool :=
  ["off", "low", "medium", "high"].contains (py_lower sm)

/-- The detail string of the `stealth_mode` 400. -/
def invalid_sm_detail : String :=
  "Invalid stealth_mode. Must be one of: off, low, medium, high"

/-- Placeholder entry for the `getD` of the gather model (never reached for
a well-formed schedule). -/
def default_entry : FetchEntry :=
  { search_result :=
      { title := "", url := "", snippet := "", engine := "", score := 0 },
    fetch_status := "", fetch_method := none, fetch_error := none,
    fetched_content := none, protection_info := none }

/-- The fan-out tasks of `/search-and-fetch`: one `fetch_single_url` per top
result, in search-result order. -/
def sf_tasks (req : SFRequest) (w : SFWorld) (top : List SearchResult) : List FetchEntry :=
  (top.enum).map fun p =>
    fetch_single_url req.stealth_mode req.auto_bypass req.format
      req.max_content_length p.2 (w.target p.1)

/-- The body of the `try` block of `/search-and-fetch` (main.py lines
584-809): time-range validation, search, rerank, truncation to the top N,
the zero-result early return, the parallel fan-out, tallies, and the cache
write. -/
def sf_body (req : SFRequest) (w : SFWorld) : Except PyExc SFResponse × List Effect :=
  if tr_check req.time_range then
    (.error (.httpException 400 invalid_tr_detail), [])
  else
    match w.searchBackend with
    | .error e => (.error e, [Effect.network_search req.query])
    | .ok data =>
      let all_results :=
        if req.rerank && !data.results.isEmpty then w.rerankFn data.results
        else data.results
      let top_results := all_results.take req.num_results
      if top_results.isEmpty then
        (.ok { query := req.query, num_results_requested := req.num_results,
               num_results_found := 0, successful_fetches := 0, failed_fetches := 0,
               stealth_mode := req.stealth_mode, auto_bypass := req.auto_bypass,
               results := [], suggestions := [],
               message := some "No search results found" },
         [Effect.network_search req.query])
      else
        let fetched := asyncio_gather default_entry (sf_tasks req w top_results) w.sched
        let resp : SFResponse :=
          { query := req.query, num_results_requested := req.num_results,
            num_results_found := top_results.length,
            successful_fetches := (fetched.filter (fun e => e.fetch_status = "success")).length,
            failed_fetches := (fetched.filter (fun e => e.fetch_status = "error")).length,
            stealth_mode := req.stealth_mode, auto_bypass := req.auto_bypass,
            results := fetched, suggestions := data.suggestions, message := none }
        match w.cacheSet with
        | .error e =>
          (.error e, [Effect.network_search req.query,
                      Effect.cache_set (search_fetch_cache_key req)])
        | .ok _ =>
          (.ok resp, [Effect.network_search req.query,
                      Effect.cache_set (search_fetch_cache_key req)])

/-- The `except` clauses of `/search-and-fetch` (main.py lines 811-816).
The final `except Exception` also catches `HTTPException`, re-raising it as
a 500. -/
def sf_handlers (r : Except PyExc SFResponse) : Except PyExc SFResponse :=
  match r with
  | .ok v => .ok v
  | .error (.httpxStatusError c m) => .error (.httpException c ("Search failed: " ++ m))
  | .error (.httpxRequestError m) =>
    .error (.httpException 503 ("Cannot connect to SearXNG: " ++ m))
  | .error e => .error (.httpException 500 ("Internal error: " ++ pyExcStr e))

/-- Shallow embedding of the `/search-and-fetch` handler (main.py lines
541-816).  The cache read happens before the `try` block, so its exceptions
propagate unhandled; a truthy cached value short-circuits. -/
def search_and_fetch (req : SFRequest) (w : SFWorld) :
    Except PyExc SFResponse × List Effect :=
  match w.cacheGet with
  | .error e => (.error e, [Effect.cache_get (search_fetch_cache_key req)])
  | .ok (some v) => (.ok v, [Effect.cache_get (search_fetch_cache_key req)])
  | .ok none =>
    let b := sf_body req w
    (sf_handlers b.1, Effect.cache_get (search_fetch_cache_key req) :: b.2)

/-! ## The `/search-api` endpoint -/

/-- Request parameters of `/search-api` (main.py lines 178-187); `format`
is accepted but unused by the handler body. -/
structure SearchApiRequest where
  query : String
  format : String
  categories : Option String
  engines : Option String
  language : Option String
  page : Int
  time_range : Option String
  rerank : Bool
  deriving DecidableEq, Repr

/-- The cache key built at main.py line 201. -/
def search_cache_key (r : SearchApiRequest) : String :=
  "search:" ++ r.query ++ ":" ++ pyOptStr r.categories ++ ":" ++
    pyOptStr r.engines ++ ":" ++ pyOptStr r.language ++ ":" ++ toString r.page ++
    ":" ++ pyOptStr r.time_range ++ ":" ++ pyBool r.rerank

/-- Response of `/search-api`. -/
structure SearchApiResponse where
  query : String
  number_of_results : Nat
  results : List SearchResult
  suggestions : List String
  deriving DecidableEq, Repr

/-- World of one `/search-api` request. -/
structure SAWorld where
  cacheGet : Except PyExc (Option SearchApiResponse)
  cacheSet : Except PyExc Unit
  searchBackend : Except PyExc SearchData
  rerankFn : List SearchResult -> List SearchResult

/-- The body of the `try` block of `/search-api` (main.py lines 206-282). -/
def sa_body (r : SearchApiRequest) (w : SAWorld) :
    Except PyExc SearchApiResponse × List Effect :=
  if tr_check r.time_range then
    (.error (.httpException 400 invalid_tr_detail), [])
  else
    match w.searchBackend with
    | .error e => (.error e, [Effect.network_search r.query])
    | .ok data =>
      let results :=
        if r.rerank && !data.results.isEmpty then w.rerankFn data.results
        else data.results
      let resp : SearchApiResponse :=
        { query := r.query, number_of_results := data.number_of_results,
          results := results, suggestions := data.suggestions }
      match w.cacheSet with
      | .error e =>
        (.error e, [Effect.network_search r.query,
                    Effect.cache_set (search_cache_key r)])
      | .ok _ =>
        (.ok resp, [Effect.network_search r.query,
                    Effect.cache_set (search_cache_key r)])

/-- The `except` clauses of `/search-api` (main.py lines 284-289).  The
final `except Exception` also catches `HTTPException`, re-raising as a 500. -/
def sa_handlers (r : Except PyExc SearchApiResponse) : Except PyExc SearchApiResponse :=
  match r with
  | .ok v => .ok v
  | .error (.httpxStatusError c m) => .error (.httpException c ("SearXNG error: " ++ m))
  | .error (.httpxRequestError m) =>
    .error (.httpException 503 ("Cannot connect to SearXNG: " ++ m))
  | .error e => .error (.httpException 500 ("Internal error: " ++ pyExcStr e))

/-- Shallow embedding of the `/search-api` handler (main.py lines 177-289).
The cache read at lines 200-204 happens before the `try` block: a raised
cache exception propagates unhandled. -/
def search_api (r : SearchApiRequest) (w : SAWorld) :
    Except PyExc SearchApiResponse × List Effect :=
  match w.cacheGet with
  | .error e => (.error e, [Effect.cache_get (search_cache_key r)])
  | .ok (some v) => (.ok v, [Effect.cache_get (search_cache_key r)])
  | .ok none =>
    let b := sa_body r w
    (sa_handlers b.1, Effect.cache_get (search_cache_key r) :: b.2)

/-! ## The `/fetch` endpoint (the slice the claims need) -/

/-- Request parameters of `/fetch` (main.py lines 292-301). -/
structure FetchUrlRequest where
  url : String
  format : String
  include_links : Bool
  include_images : Bool
  max_content_length : Nat
  extraction_mode : String
  stealth_mode : String
  auto_bypass : Bool
  deriving DecidableEq, Repr

/-- Result payload of `/fetch` (the fields every claim touches; the
extracted content itself comes from the external extraction engines). -/
structure FetchUrlResult where
  url : String
  status_code : Nat
  fetch_method : String
  content : String
  protection_info : Option ProtectionInfo
  deriving DecidableEq, Repr

/-- World of one `/fetch` request: the `urlparse` verdict (scheme and netloc
both nonempty), the outcome of the `advanced_fetch` call, and the extracted
content delivered by the external extraction engines. -/
structure FUWorld where
  url_ok : Bool
  advRes : Except PyExc AdvancedFetchResult
  content : String

/-- The body of the `try` block of `/fetch` (main.py lines 325-532): URL
validation, stealth-mode validation, then the fetch and extraction. -/
def fu_body (r : FetchUrlRequest) (w : FUWorld) :
    Except PyExc FetchUrlResult × List Effect :=
  if ! w.url_ok then
    (.error (.httpException 400 "Invalid URL format"), [])
  else if ! stealth_mode_valid r.stealth_mode then
    (.error (.httpException 400 invalid_sm_detail), [])
  else
    match w.advRes with
    | .error e => (.error e, [Effect.network_fetch r.url])
    | .ok fr =>
      (.ok { url := fr.final_url, status_code := fr.status_code,
             fetch_method := fr.fetch_method,
             content := truncate_content r.max_content_length w.content,
             protection_info := fr.protection_info },
       [Effect.network_fetch r.url])

/-- The `except` clauses of `/fetch` (main.py lines 534-539).  The final
`except Exception` also catches `HTTPException`, re-raising as a 500. -/
def fu_handlers (r : Except PyExc FetchUrlResult) : Except PyExc FetchUrlResult :=
  match r with
  | .ok v => .ok v
  | .error (.httpxStatusError c m) =>
    .error (.httpException c ("Failed to fetch URL: " ++ m))
  | .error (.httpxRequestError m) =>
    .error (.httpException 503 ("Cannot connect to URL: " ++ m))
  | .error e => .error (.httpException 500 ("Error processing content: " ++ pyExcStr e))

/-- Shallow embedding of the `/fetch` handler (main.py lines 291-539). -/
def fetch_url (r : FetchUrlRequest) (w : FUWorld) :
    Except PyExc FetchUrlResult × List Effect :=
  let b := fu_body r w
  (fu_handlers b.1, b.2)

/-! ## The `/deep-research` endpoint -/

/-- Request parameters of `/deep-research` (main.py lines 819-827). -/
structure DRRequest where
  queries : String
  breadth : Nat
  time_range : Option String
  max_content_length : Nat
  include_suggestions : Bool
  stealth_mode : String
  auto_bypass : Bool
  deriving DecidableEq, Repr

/-- The cache key built at main.py line 870: note the query list is sorted
before interpolation and `auto_bypass` / `include_suggestions` are absent. -/
def deep_research_cache_key (query_list : List String) (breadth : Nat)
    (time_range : Option String) (max_content_length : Nat)
    (stealth_mode : String) : String :=
  "deep_research:" ++ String.intercalate "," (py_sorted query_list) ++ ":" ++
    toString breadth ++ ":" ++ pyOptStr time_range ++ ":" ++
    toString max_content_length ++ ":" ++ stealth_mode

/-- One element of `query_results` (built at main.py lines 896-913). -/
structure QueryResult where
  query : String
  status : String
  error : Option String
  num_results : Nat
  successful_fetches : Nat
  results : List FetchEntry
  suggestions : List String
  deriving DecidableEq, Repr

/-- Response of `/deep-research` (the compiled markdown report is derived
presentation data and not modelled). -/
structure DRResponse where
  total_queries : Nat
  successful_queries : Nat
  failed_queries : Nat
  total_results_found : Nat
  total_successful_fetches : Nat
  breadth_per_query : Nat
  queries : List String
  query_results : List QueryResult
  all_suggestions : List String
  deriving DecidableEq, Repr

/-- World of one `/deep-research` request: one `SFWorld` per query index. -/
structure DRWorld where
  cacheGet : Except PyExc (Option DRResponse)
  cacheSet : Except PyExc Unit
  inner : Nat -> SFWorld
  sched : List Nat

/-- The inner `search_and_fetch` request built by `process_single_query`
(main.py lines 880-891). -/
def dr_sf_request (dr : DRRequest) (q : String) : SFRequest :=
  { query := q, num_results := dr.breadth, categories := some "general",
    language := some "en", format := "markdown",
    max_content_length := dr.max_content_length, time_range := dr.time_range,
    rerank := true, stealth_mode := dr.stealth_mode, auto_bypass := dr.auto_bypass }

/-- Shallow embedding of `process_single_query` (main.py lines 877-913):
total, every exception becomes an `"error"` result for that query alone. -/
def process_single_query (dr : DRRequest) (w_q : SFWorld) (q : String) :
    QueryResult × List Effect :=
  match search_and_fetch (dr_sf_request dr q) w_q with
  | (.ok resp, effs) =>
    ({ query := q, status := "success", error := none,
       num_results := resp.num_results_found,
       successful_fetches := resp.successful_fetches,
       results := resp.results, suggestions := resp.suggestions }, effs)
  | (.error e, effs) =>
    ({ query := q, status := "error", error := some (pyExcStr e),
       num_results := 0, successful_fetches := 0, results := [],
       suggestions := [] }, effs)

/-- The per-query tasks of the `/deep-research` fan-out, in query order. -/
def dr_tasks (dr : DRRequest) (w : DRWorld) (ql : List String) :
    List (QueryResult × List Effect) :=
  (ql.enum).map (fun p => process_single_query dr (w.inner p.1) p.2)

/-- Placeholder for the gather model (never reached for a well-formed
schedule). -/
def default_query_result : QueryResult :=
  { query := "", status := "", error := none, num_results := 0,
    successful_fetches := 0, results := [], suggestions := [] }

/-- Deduplicated, capped suggestion set: `list(set(xs))[:20]`.  Python set
iteration order is unspecified; first-occurrence order stands in for it. -/
def dedupe_cap (l : List String) : List String := l.eraseDups.take 20

/-- Shallow embedding of the `/deep-research` handler (main.py lines
818-961).  Validation of the parsed query list and of `stealth_mode`
happens before the cache read and outside the `try` block, so those 400s
reach the client unchanged; the only `except` clause is
`except Exception -> 500 "Deep research failed: ..."`.  Effects of the
concurrently processed queries are recorded in task order. -/
def deep_research (dr : DRRequest) (w : DRWorld) :
    Except PyExc DRResponse × List Effect :=
  let query_list := parse_query_list dr.queries
  if query_list.isEmpty then
    (.error (.httpException 400 "No valid queries provided. Use comma-separated queries."),
     [])
  else if query_list.length > 10 then
    (.error (.httpException 400 "Maximum 10 queries allowed per request."), [])
  else if ! stealth_mode_valid dr.stealth_mode then
    (.error (.httpException 400 invalid_sm_detail), [])
  else
    let key := deep_research_cache_key query_list dr.breadth dr.time_range
      dr.max_content_length dr.stealth_mode
    match w.cacheGet with
    | .error e => (.error e, [Effect.cache_get key])
    | .ok (some v) => (.ok v, [Effect.cache_get key])
    | .ok none =>
      let tasks := dr_tasks dr w query_list
      let query_results := asyncio_gather default_query_result (tasks.map Prod.fst) w.sched
      let inner_effects := (tasks.map Prod.snd).flatten
      let resp : DRResponse :=
        { total_queries := query_list.length,
          successful_queries := (query_results.filter (fun q => q.status = "success")).length,
          failed_queries := (query_results.filter (fun q => q.status = "error")).length,
          total_results_found := (query_results.map (fun q => q.num_results)).sum,
          total_successful_fetches :=
            ((query_results.filter (fun q => q.status = "success")).map
              (fun q => q.successful_fetches)).sum,
          breadth_per_query := dr.breadth,
          queries := query_list,
          query_results := query_results,
          all_suggestions :=
            if dr.include_suggestions then
              dedupe_cap ((query_results.map (fun q => q.suggestions)).flatten)
            else [] }
      match w.cacheSet with
      | .error e =>
        (.error (.httpException 500 ("Deep research failed: " ++ pyExcStr e)),
         Effect.cache_get key :: inner_effects ++ [Effect.cache_set key])
      | .ok _ =>
        (.ok resp, Effect.cache_get key :: inner_effects ++ [Effect.cache_set key])

/-! ## Helper lemmas about the `/search-and-fetch` pipeline -/

theorem sf_tasks_length (req : SFRequest) (w : SFWorld) (top : List SearchResult) :
    (sf_tasks req w top).length = top.length := by
  unfold sf_tasks
  rw [List.length_map, List.enum_length]

theorem sf_tasks_getElem (req : SFRequest) (w : SFWorld) (top : List SearchResult)
    (i : Nat) :
    (sf_tasks req w top)[i]? = (top[i]?).map (fun t =>
      fetch_single_url req.stealth_mode req.auto_bypass req.format
        req.max_content_length t (w.target i)) := by
  unfold sf_tasks
  rw [List.getElem?_map, List.getElem?_enum]
  cases top[i]? <;> rfl

/-- Full evaluation of `/search-and-fetch` on a cache miss with valid
parameters, a successful search, a nonempty top list and a healthy cache
write. -/
theorem sf_reaches_fanout (req : SFRequest) (w : SFWorld) (data : SearchData)
    (top : List SearchResult)
    (hmiss : w.cacheGet = .ok none)
    (htr : tr_check req.time_range = false)
    (hsb : w.searchBackend = .ok data)
    (htop : (if req.rerank && !data.results.isEmpty then w.rerankFn data.results
             else data.results).take req.num_results = top)
    (hne : top.isEmpty = false)
    (hset : w.cacheSet = .ok ()) :
    search_and_fetch req w =
      (.ok { query := req.query, num_results_requested := req.num_results,
             num_results_found := top.length,
             successful_fetches :=
               ((asyncio_gather default_entry (sf_tasks req w top) w.sched).filter
                 (fun e => e.fetch_status = "success")).length,
             failed_fetches :=
               ((asyncio_gather default_entry (sf_tasks req w top) w.sched).filter
                 (fun e => e.fetch_status = "error")).length,
             stealth_mode := req.stealth_mode, auto_bypass := req.auto_bypass,
             results := asyncio_gather default_entry (sf_tasks req w top) w.sched,
             suggestions := data.suggestions, message := none },
       [Effect.cache_get (search_fetch_cache_key req),
        Effect.network_search req.query,
        Effect.cache_set (search_fetch_cache_key req)]) := by
  unfold search_and_fetch
  rw [hmiss]
  unfold sf_body
  simp only [htr, Bool.false_eq_true, if_false, reduceIte]
  rw [hsb]
  dsimp only
  rw [htop]
  simp only [hne, Bool.false_eq_true, if_false, reduceIte]
  rw [hset]
  rfl

/-- C10: a `/search-and-fetch` whose search yields zero top results returns
the "No search results found" response and writes nothing to the cache;
only runs with at least one top result perform the cache write (with the
request key). -/
theorem c10_empty_results_never_cached (req : SFRequest) (w : SFWorld)
    (data : SearchData) (top : List SearchResult)
    (hmiss : w.cacheGet = .ok none)
    (htr : tr_check req.time_range = false)
    (hsb : w.searchBackend = .ok data)
    (htop : (if req.rerank && !data.results.isEmpty then w.rerankFn data.results
             else data.results).take req.num_results = top) :
    (top = [] →
      (search_and_fetch req w).1 = .ok
        { query := req.query, num_results_requested := req.num_results,
          num_results_found := 0, successful_fetches := 0, failed_fetches := 0,
          stealth_mode := req.stealth_mode, auto_bypass := req.auto_bypass,
          results := [], suggestions := [],
          message := some "No search results found" } ∧
      (∀ k, Effect.cache_set k ∉ (search_and_fetch req w).2)) ∧
    (top ≠ [] →
      Effect.cache_set (search_fetch_cache_key req) ∈ (search_and_fetch req w).2) := by
  unfold search_and_fetch
  rw [hmiss]
  unfold sf_body
  simp only [htr, Bool.false_eq_true, if_false, reduceIte]
  rw [hsb]
  dsimp only
  rw [htop]
  constructor
  · intro he
    subst he
    simp only [List.isEmpty_nil, if_true, reduceIte]
    exact ⟨rfl, by intro k; simp⟩
  · intro hne
    have hne2 : top.isEmpty = false := by
      cases top
      · exact absurd rfl hne
      · rfl
    simp only [hne2, Bool.false_eq_true, if_false, reduceIte]
    cases hcs : w.cacheSet <;> simp

/-! ## Concrete worlds for witnesses -/

/-- A fan-out target whose pipeline succeeds through the readability
fallback. -/
def tw_triv : TargetWorld :=
  { url_valid := true, standardFetch := fun _ => .ok { text := "h0", status_code := 200, url := "u" },
    stealthFetch := fun _ _ => .ok { text := "h0", status_code := 200, url := "u" },
    dp := fun _ => okVerdict, extract := .ok none,
    fallback_title := "T", fallback_content := "body" }

/-- A fan-out target whose standard fetch raises a transport error. -/
def tw_fail : TargetWorld :=
  { url_valid := true, standardFetch := fun _ => .error "boom",
    stealthFetch := fun _ _ => .error "boom",
    dp := fun _ => okVerdict, extract := .ok none,
    fallback_title := "", fallback_content := "" }

/-- An empty but healthy SearXNG answer. -/
def sd_empty : SearchData := { results := [], suggestions := [], number_of_results := 0 }

/-- A `/search-and-fetch` world with an empty search answer. -/
def w_sf_triv : SFWorld :=
  { cacheGet := .ok none, cacheSet := .ok (), searchBackend := .ok sd_empty,
    rerankFn := id, target := fun _ => tw_triv, sched := [] }

/-- A baseline `/search-and-fetch` request. -/
def rq_sf_base : SFRequest :=
  { query := "q", num_results := 3, categories := some "general",
    language := some "en", format := "markdown", max_content_length := 100000,
    time_range := none, rerank := false, stealth_mode := "off", auto_bypass := false }

/-- Witness for C10: a concrete zero-result run returns the no-results
response and performs no cache write. -/
theorem c10_empty_results_never_cached_witness :
    (search_and_fetch rq_sf_base w_sf_triv).1 = .ok
      { query := "q", num_results_requested := 3,
        num_results_found := 0, successful_fetches := 0, failed_fetches := 0,
        stealth_mode := "off", auto_bypass := false,
        results := [], suggestions := [],
        message := some "No search results found" } ∧
    Effect.cache_set (search_fetch_cache_key rq_sf_base) ∉
      (search_and_fetch rq_sf_base w_sf_triv).2 :=
  ⟨((c10_empty_results_never_cached rq_sf_base w_sf_triv sd_empty []
      rfl rfl rfl rfl).1 rfl).1,
   ((c10_empty_results_never_cached rq_sf_base w_sf_triv sd_empty []
      rfl rfl rfl rfl).1 rfl).2 _⟩

/-! ## Helper lemmas about the `/deep-research` pipeline -/

theorem dr_tasks_fst_length (dr : DRRequest) (w : DRWorld) (ql : List String) :
    ((dr_tasks dr w ql).map Prod.fst).length = ql.length := by
  unfold dr_tasks
  rw [List.length_map, List.length_map, List.enum_length]

/-- Full evaluation of `/deep-research` past its validations, on a cache
miss with a healthy cache write. -/
theorem dr_reaches_fanout (dr : DRRequest) (w : DRWorld) (ql : List String)
    (hql : parse_query_list dr.queries = ql)
    (hne : ql.isEmpty = false)
    (hlen : ¬ ql.length > 10)
    (hsm : stealth_mode_valid dr.stealth_mode = true)
    (hmiss : w.cacheGet = .ok none)
    (hset : w.cacheSet = .ok ()) :
    deep_research dr w =
      (.ok { total_queries := ql.length,
             successful_queries :=
               ((asyncio_gather default_query_result ((dr_tasks dr w ql).map Prod.fst)
                   w.sched).filter (fun q => q.status = "success")).length,
             failed_queries :=
               ((asyncio_gather default_query_result ((dr_tasks dr w ql).map Prod.fst)
                   w.sched).filter (fun q => q.status = "error")).length,
             total_results_found :=
               ((asyncio_gather default_query_result ((dr_tasks dr w ql).map Prod.fst)
                   w.sched).map (fun q => q.num_results)).sum,
             total_successful_fetches :=
               (((asyncio_gather default_query_result ((dr_tasks dr w ql).map Prod.fst)
                   w.sched).filter (fun q => q.status = "success")).map
                 (fun q => q.successful_fetches)).sum,
             breadth_per_query := dr.breadth,
             queries := ql,
             query_results :=
               asyncio_gather default_query_result ((dr_tasks dr w ql).map Prod.fst)
                 w.sched,
             all_suggestions :=
               if dr.include_suggestions then
                 dedupe_cap (((asyncio_gather default_query_result
                     ((dr_tasks dr w ql).map Prod.fst) w.sched).map
                   (fun q => q.suggestions)).flatten)
               else [] },
       Effect.cache_get (deep_research_cache_key ql dr.breadth dr.time_range
           dr.max_content_length dr.stealth_mode) ::
         ((dr_tasks dr w ql).map Prod.snd).flatten ++
           [Effect.cache_set (deep_research_cache_key ql dr.breadth dr.time_range
             dr.max_content_length dr.stealth_mode)]) := by
  unfold deep_research
  rw [hql]
  simp only [hne, Bool.false_eq_true, if_false, reduceIte, hsm, Bool.not_true]
  rw [if_neg hlen]
  rw [hmiss]
  dsimp only
  rw [hset]

/-- C6: in both fan-outs (`/search-and-fetch` over the top results,
`/deep-research` over its queries) the result sequence has exactly one entry
per input target, ordered identically to the input sequence, for every
completion order of the underlying tasks. -/
theorem c6_fanout_one_entry_per_target_in_input_order
    (req : SFRequest) (w : SFWorld) (data : SearchData) (top : List SearchResult)
    (dr : DRRequest) (wd : DRWorld) (ql : List String) :
    (w.cacheGet = .ok none → tr_check req.time_range = false →
     w.searchBackend = .ok data →
     (if req.rerank && !data.results.isEmpty then w.rerankFn data.results
      else data.results).take req.num_results = top →
     top.isEmpty = false → w.cacheSet = .ok () →
     List.Perm w.sched (List.range top.length) →
     ∃ resp, (search_and_fetch req w).1 = .ok resp ∧
       resp.results = sf_tasks req w top ∧
       resp.results.length = top.length ∧
       (∀ i, resp.results[i]? = (top[i]?).map (fun t =>
         fetch_single_url req.stealth_mode req.auto_bypass req.format
           req.max_content_length t (w.target i)))) ∧
    (parse_query_list dr.queries = ql → ql.isEmpty = false → ¬ ql.length > 10 →
     stealth_mode_valid dr.stealth_mode = true →
     wd.cacheGet = .ok none → wd.cacheSet = .ok () →
     List.Perm wd.sched (List.range ql.length) →
     ∃ resp, (deep_research dr wd).1 = .ok resp ∧
       resp.query_results = (dr_tasks dr wd ql).map Prod.fst ∧
       resp.query_results.length = ql.length ∧
       resp.queries = ql) := by
  constructor
  · intro hmiss htr hsb htop hne hset hperm
    have hg : asyncio_gather default_entry (sf_tasks req w top) w.sched
        = sf_tasks req w top :=
      asyncio_gather_perm _ _ _ (by rw [sf_tasks_length]; exact hperm)
    rw [sf_reaches_fanout req w data top hmiss htr hsb htop hne hset]
    refine ⟨_, rfl, hg, ?_, ?_⟩
    · rw [hg, sf_tasks_length]
    · intro i
      rw [hg, sf_tasks_getElem]
  · intro hql hne hlen hsm hmiss hset hperm
    have hg : asyncio_gather default_query_result ((dr_tasks dr wd ql).map Prod.fst)
        wd.sched = (dr_tasks dr wd ql).map Prod.fst :=
      asyncio_gather_perm _ _ _ (by rw [dr_tasks_fst_length]; exact hperm)
    rw [dr_reaches_fanout dr wd ql hql hne hlen hsm hmiss hset]
    exact ⟨_, rfl, hg, by rw [hg, dr_tasks_fst_length], rfl⟩

/-- Two concrete search results. -/
def sr_a : SearchResult :=
  { title := "A", url := "https://a", content := "ca", engine := "e", score := 2 }

/-- Another concrete search result. -/
def sr_b : SearchResult :=
  { title := "B", url := "https://b", content := "cb", engine := "e", score := 1 }

/-- A two-result healthy SearXNG answer. -/
def sd_two : SearchData :=
  { results := [sr_a, sr_b], suggestions := ["s1"], number_of_results := 2 }

/-- A `/search-and-fetch` world with two results whose tasks complete in
reversed order (schedule `[1, 0]`). -/
def w_sf_two : SFWorld :=
  { cacheGet := .ok none, cacheSet := .ok (), searchBackend := .ok sd_two,
    rerankFn := id, target := fun _ => tw_triv, sched := [1, 0] }

/-- A `/search-and-fetch` request asking for the top two results. -/
def rq_sf_two : SFRequest :=
  { query := "q", num_results := 2, categories := some "general",
    language := some "en", format := "text", max_content_length := 100000,
    time_range := none, rerank := false, stealth_mode := "off", auto_bypass := false }

/-- A concrete `/deep-research` request over two queries. -/
def dr_ab : DRRequest :=
  { queries := "a,b", breadth := 3, time_range := none,
    max_content_length := 30000, include_suggestions := true,
    stealth_mode := "off", auto_bypass := false }

/-- A `/deep-research` world whose two query tasks complete in reversed
order. -/
def w_dr_two : DRWorld :=
  { cacheGet := .ok none, cacheSet := .ok (), inner := fun _ => w_sf_triv,
    sched := [1, 0] }

/-- Witness for C6: both concrete fan-outs, with tasks completing in
reversed order, still deliver one entry per input in input order. -/
theorem c6_fanout_one_entry_per_target_in_input_order_witness :
    (∃ resp, (search_and_fetch rq_sf_two w_sf_two).1 = .ok resp ∧
       resp.results = sf_tasks rq_sf_two w_sf_two [sr_a, sr_b] ∧
       resp.results.length = ([sr_a, sr_b] : List SearchResult).length ∧
       (∀ i, resp.results[i]? = (([sr_a, sr_b] : List SearchResult)[i]?).map (fun t =>
         fetch_single_url rq_sf_two.stealth_mode rq_sf_two.auto_bypass rq_sf_two.format
           rq_sf_two.max_content_length t (w_sf_two.target i)))) ∧
    (∃ resp, (deep_research dr_ab w_dr_two).1 = .ok resp ∧
       resp.query_results = (dr_tasks dr_ab w_dr_two ["a", "b"]).map Prod.fst ∧
       resp.query_results.length = (["a", "b"] : List String).length ∧
       resp.queries = ["a", "b"]) :=
  ⟨(c6_fanout_one_entry_per_target_in_input_order rq_sf_two w_sf_two sd_two
      [sr_a, sr_b] dr_ab w_dr_two ["a", "b"]).1
      rfl rfl rfl rfl rfl rfl (by decide),
   (c6_fanout_one_entry_per_target_in_input_order rq_sf_two w_sf_two sd_two
      [sr_a, sr_b] dr_ab w_dr_two ["a", "b"]).2
      (by decide) rfl (by decide) rfl rfl rfl (by decide)⟩

/-- Every entry produced by the per-target pipeline carries `fetch_status`
`"success"` or `"error"`: the pipeline is total. -/
theorem fetch_single_url_status (sm : String) (ab : Bool) (fm : String)
    (mcl : Nat) (result : SearchResult) (tw : TargetWorld) :
    (fetch_single_url sm ab fm mcl result tw).fetch_status = "success" ∨
    (fetch_single_url sm ab fm mcl result tw).fetch_status = "error" := by
  unfold fetch_single_url
  split
  · exact Or.inr rfl
  · split
    · exact Or.inr rfl
    · exact Or.inr rfl
    · split
      · exact Or.inr rfl
      · exact Or.inr rfl
      · exact Or.inl rfl
      · exact Or.inl rfl

/-- A raised `HTTPException` in one target's fetch is captured as that
target's error entry, carrying the exception detail. -/
theorem fetch_single_url_captures_httpexc (sm : String) (ab : Bool) (fm : String)
    (mcl : Nat) (t : SearchResult) (tw : TargetWorld) (s : Nat) (d : String)
    (hv : tw.url_valid = true)
    (hf : advanced_fetch t.url sm ab tw.standardFetch tw.stealthFetch tw.dp
      = .error (.httpException s d)) :
    fetch_single_url sm ab fm mcl t tw = error_entry t d := by
  unfold fetch_single_url
  rw [hf]
  simp [hv]

/-- A transport error in one target's fetch is captured as that target's
error entry, wrapped in the processing-error message. -/
theorem fetch_single_url_captures_transport (sm : String) (ab : Bool) (fm : String)
    (mcl : Nat) (t : SearchResult) (tw : TargetWorld) (m : String)
    (hv : tw.url_valid = true)
    (hf : advanced_fetch t.url sm ab tw.standardFetch tw.stealthFetch tw.dp
      = .error (.transport m)) :
    fetch_single_url sm ab fm mcl t tw = error_entry t ("Processing error: " ++ m) := by
  unfold fetch_single_url
  rw [hf]
  simp [hv]

/-- Filtering by the two statuses partitions a list of entries that all
carry one of them. -/
theorem filter_status_partition (l : List FetchEntry)
    (h : ∀ e ∈ l, e.fetch_status = "success" ∨ e.fetch_status = "error") :
    (l.filter (fun e => e.fetch_status = "success")).length +
    (l.filter (fun e => e.fetch_status = "error")).length = l.length := by
  induction l with
  | nil => rfl
  | cons a t ih =>
    have ha := h a (List.mem_cons_self a t)
    have ht := ih (fun e he => h e (List.mem_cons_of_mem a he))
    rcases ha with ha | ha <;>
      simp only [List.filter_cons, ha, decide_eq_true_eq] <;>
      simp only [List.length_cons] <;>
      simp <;>
      omega

/-- C7: a failure in one target of the `/search-and-fetch` fan-out is
captured as an error entry for that target only (each output entry is a
function of its own target and that target's world alone); the overall
request still succeeds with one entry per target, and the
`successful_fetches` / `failed_fetches` counts are the tallies of the two
statuses, which partition the entries. -/
theorem c7_fanout_failure_isolation
    (req : SFRequest) (w : SFWorld) (data : SearchData) (top : List SearchResult)
    (hmiss : w.cacheGet = .ok none)
    (htr : tr_check req.time_range = false)
    (hsb : w.searchBackend = .ok data)
    (htop : (if req.rerank && !data.results.isEmpty then w.rerankFn data.results
             else data.results).take req.num_results = top)
    (hne : top.isEmpty = false)
    (hset : w.cacheSet = .ok ())
    (hperm : List.Perm w.sched (List.range top.length)) :
    (∃ resp, (search_and_fetch req w).1 = .ok resp ∧
      resp.results.length = top.length ∧
      (∀ i, resp.results[i]? = (top[i]?).map (fun t =>
        fetch_single_url req.stealth_mode req.auto_bypass req.format
          req.max_content_length t (w.target i))) ∧
      (∀ e ∈ resp.results, e.fetch_status = "success" ∨ e.fetch_status = "error") ∧
      resp.successful_fetches =
        (resp.results.filter (fun e => e.fetch_status = "success")).length ∧
      resp.failed_fetches =
        (resp.results.filter (fun e => e.fetch_status = "error")).length ∧
      resp.successful_fetches + resp.failed_fetches = top.length) ∧
    (∀ (t : SearchResult) (tw : TargetWorld) (s : Nat) (d : String),
      tw.url_valid = true →
      advanced_fetch t.url req.stealth_mode req.auto_bypass
        tw.standardFetch tw.stealthFetch tw.dp = .error (.httpException s d) →
      fetch_single_url req.stealth_mode req.auto_bypass req.format
        req.max_content_length t tw = error_entry t d) := by
  have hg : asyncio_gather default_entry (sf_tasks req w top) w.sched
      = sf_tasks req w top :=
    asyncio_gather_perm _ _ _ (by rw [sf_tasks_length]; exact hperm)
  have hstat : ∀ e ∈ sf_tasks req w top,
      e.fetch_status = "success" ∨ e.fetch_status = "error" := by
    intro e he
    unfold sf_tasks at he
    obtain ⟨p, _, hp⟩ := List.mem_map.mp he
    rw [← hp]
    exact fetch_single_url_status _ _ _ _ _ _
  constructor
  · rw [sf_reaches_fanout req w data top hmiss htr hsb htop hne hset]
    refine ⟨_, rfl, ?_, ?_, ?_, ?_, ?_, ?_⟩
    · rw [hg, sf_tasks_length]
    · intro i
      rw [hg, sf_tasks_getElem]
    · intro e he
      rw [hg] at he
      exact hstat e he
    · rw [hg]
    · rw [hg]
    · rw [hg, filter_status_partition _ hstat, sf_tasks_length]
  · intro t tw s d hv hf
    exact fetch_single_url_captures_httpexc _ _ _ _ t tw s d hv hf

/-- A third concrete search result. -/
def sr_c : SearchResult :=
  { title := "C", url := "https://c", content := "cc", engine := "e", score := 0 }

/-- A three-result healthy SearXNG answer. -/
def sd_three : SearchData :=
  { results := [sr_a, sr_b, sr_c], suggestions := [], number_of_results := 3 }

/-- A `/search-and-fetch` world where the middle target's fetch raises a
transport error while its siblings succeed, with tasks completing out of
order. -/
def w_sf_three : SFWorld :=
  { cacheGet := .ok none, cacheSet := .ok (), searchBackend := .ok sd_three,
    rerankFn := id, target := fun i => if i = 1 then tw_fail else tw_triv,
    sched := [2, 0, 1] }

/-- A `/search-and-fetch` request asking for the top three results. -/
def rq_sf_three : SFRequest :=
  { query := "q", num_results := 3, categories := some "general",
    language := some "en", format := "text", max_content_length := 100000,
    time_range := none, rerank := false, stealth_mode := "off", auto_bypass := false }

/-- Witness for C7: the concrete three-target run with a failing middle
target still succeeds, one entry per target, with counts that tally and
partition the statuses. -/
theorem c7_fanout_failure_isolation_witness :
    (∃ resp, (search_and_fetch rq_sf_three w_sf_three).1 = .ok resp ∧
      resp.results.length = ([sr_a, sr_b, sr_c] : List SearchResult).length ∧
      (∀ i, resp.results[i]? = (([sr_a, sr_b, sr_c] : List SearchResult)[i]?).map (fun t =>
        fetch_single_url rq_sf_three.stealth_mode rq_sf_three.auto_bypass
          rq_sf_three.format rq_sf_three.max_content_length t (w_sf_three.target i))) ∧
      (∀ e ∈ resp.results, e.fetch_status = "success" ∨ e.fetch_status = "error") ∧
      resp.successful_fetches =
        (resp.results.filter (fun e => e.fetch_status = "success")).length ∧
      resp.failed_fetches =
        (resp.results.filter (fun e => e.fetch_status = "error")).length ∧
      resp.successful_fetches + resp.failed_fetches =
        ([sr_a, sr_b, sr_c] : List SearchResult).length) ∧
    (∀ (t : SearchResult) (tw : TargetWorld) (s : Nat) (d : String),
      tw.url_valid = true →
      advanced_fetch t.url rq_sf_three.stealth_mode rq_sf_three.auto_bypass
        tw.standardFetch tw.stealthFetch tw.dp = .error (.httpException s d) →
      fetch_single_url rq_sf_three.stealth_mode rq_sf_three.auto_bypass
        rq_sf_three.format rq_sf_three.max_content_length t tw = error_entry t d) :=
  c7_fanout_failure_isolation rq_sf_three w_sf_three sd_three [sr_a, sr_b, sr_c]
    rfl rfl rfl rfl rfl rfl (by decide)

/-- C8: a `/deep-research` query list parsing to zero or more than 10
non-empty queries is rejected with a 400 before any effect (no cache access,
search or fetch); a list of 1 to 10 non-empty queries (with a valid stealth
mode) is never rejected with a 400, and proceeds directly to the cache read. -/
theorem c8_deep_research_query_cap (dr : DRRequest) (w : DRWorld) (ql : List String)
    (hql : parse_query_list dr.queries = ql)
    (hcg : ∀ s d, w.cacheGet ≠ .error (.httpException s d)) :
    ((ql.length = 0 ∨ ql.length > 10) →
      (∃ d, (deep_research dr w).1 = .error (.httpException 400 d)) ∧
      (deep_research dr w).2 = []) ∧
    (1 ≤ ql.length → ql.length ≤ 10 → stealth_mode_valid dr.stealth_mode = true →
      (∀ d, (deep_research dr w).1 ≠ .error (.httpException 400 d)) ∧
      (deep_research dr w).2.head? = some (Effect.cache_get
        (deep_research_cache_key ql dr.breadth dr.time_range
          dr.max_content_length dr.stealth_mode))) := by
  unfold deep_research
  rw [hql]
  constructor
  · intro h
    rcases h with h | h
    · have he : ql.isEmpty = true := by
        cases ql
        · rfl
        · simp at h
      simp only [he, if_true, reduceIte]
      exact ⟨⟨_, rfl⟩, trivial⟩
    · have he : ql.isEmpty = false := by
        cases ql
        · simp at h
        · rfl
      simp only [he, Bool.false_eq_true, if_false, reduceIte]
      rw [if_pos h]
      exact ⟨⟨_, rfl⟩, rfl⟩
  · intro h1 h10 hsm
    have he : ql.isEmpty = false := by
      cases ql
      · simp at h1
      · rfl
    simp only [he, Bool.false_eq_true, if_false, reduceIte, hsm, Bool.not_true]
    rw [if_neg (by omega)]
    cases hcg0 : w.cacheGet with
    | error e =>
      refine ⟨?_, rfl⟩
      intro d hd
      simp only [Except.error.injEq] at hd
      exact hcg 400 d (by rw [hcg0, hd])
    | ok v =>
      cases v with
      | none =>
        cases hcs : w.cacheSet with
        | error e =>
          refine ⟨?_, rfl⟩
          intro d hd
          simp only [Except.error.injEq, PyExc.httpException.injEq] at hd
          omega
        | ok u => exact ⟨fun d hd => Except.noConfusion hd, rfl⟩
      | some v => exact ⟨fun d hd => Except.noConfusion hd, rfl⟩

/-- An 11-query `/deep-research` request. -/
def dr_eleven : DRRequest :=
  { queries := "a,b,c,d,e,f,g,h,i,j,k", breadth := 3, time_range := none,
    max_content_length := 30000, include_suggestions := true,
    stealth_mode := "off", auto_bypass := false }

/-- Witness for C8: 11 queries are rejected with a 400 and no effects; 2
queries pass validation and reach the cache read. -/
theorem c8_deep_research_query_cap_witness :
    ((∃ d, (deep_research dr_eleven w_dr_two).1 = .error (.httpException 400 d)) ∧
      (deep_research dr_eleven w_dr_two).2 = []) ∧
    ((∀ d, (deep_research dr_ab w_dr_two).1 ≠ .error (.httpException 400 d)) ∧
      (deep_research dr_ab w_dr_two).2.head? = some (Effect.cache_get
        (deep_research_cache_key ["a", "b"] dr_ab.breadth dr_ab.time_range
          dr_ab.max_content_length dr_ab.stealth_mode))) :=
  ⟨(c8_deep_research_query_cap dr_eleven w_dr_two
      ["a", "b", "c", "d", "e", "f", "g", "h", "i", "j", "k"] (by decide)
      (fun s d h => Except.noConfusion h)).1 (Or.inr (by decide)),
   (c8_deep_research_query_cap dr_ab w_dr_two ["a", "b"] (by decide)
      (fun s d h => Except.noConfusion h)).2 (by decide) (by decide) rfl⟩

/-! ## C9: cache failures are not fail-open -/

/-- A healthy empty-backend `/search-api` world whose cache store raises on
`get`. -/
def w_sa_cache_down : SAWorld :=
  { cacheGet := .error (.cacheError "disk failure"), cacheSet := .ok (),
    searchBackend := .ok sd_empty, rerankFn := id }

/-- A baseline `/search-api` request. -/
def rq_sa_base : SearchApiRequest :=
  { query := "x", format := "json", categories := none, engines := none,
    language := some "en", page := 1, time_range := none, rerank := false }

/-- C9 counterexample: with a healthy search backend but a cache store that
raises on `get`, `/search-api` does NOT treat the failure as a miss — the
exception propagates unhandled (HTTP 500) and no fresh search is performed. -/
theorem c9_counterexample :
    (search_api rq_sa_base w_sa_cache_down).1 = .error (.cacheError "disk failure") ∧
    http_status (search_api rq_sa_base w_sa_cache_down).1 = 500 ∧
    Effect.network_search "x" ∉ (search_api rq_sa_base w_sa_cache_down).2 ∧
    w_sa_cache_down.searchBackend = .ok sd_empty :=
  ⟨rfl, rfl, by decide, rfl⟩

/-- C9 amended: a cache-store failure is never treated as a miss.  On `get`
it propagates as an unhandled exception (HTTP 500) and the request performs
no search — in `/search-api` and `/deep-research` alike; on `set` (inside
the `try`) the catch-all converts it into a 500 after the search has
already happened.  In no case does the caller receive a completed fresh
response. -/
theorem c9_cache_failure_not_fail_open
    (r : SearchApiRequest) (w : SAWorld) (e : PyExc) (m : String)
    (dr : DRRequest) (wd : DRWorld) (ql : List String) :
    (w.cacheGet = .error e →
      (search_api r w).1 = .error e ∧
      (∀ q, Effect.network_search q ∉ (search_api r w).2)) ∧
    (∀ data, w.cacheGet = .ok none → tr_check r.time_range = false →
      w.searchBackend = .ok data → w.cacheSet = .error (.cacheError m) →
      (search_api r w).1 = .error (.httpException 500 ("Internal error: " ++ m))) ∧
    (parse_query_list dr.queries = ql → ql.isEmpty = false → ¬ ql.length > 10 →
      stealth_mode_valid dr.stealth_mode = true → wd.cacheGet = .error e →
      (deep_research dr wd).1 = .error e ∧
      (∀ q, Effect.network_search q ∉ (deep_research dr wd).2)) := by
  refine ⟨?_, ?_, ?_⟩
  · intro hcg
    unfold search_api
    rw [hcg]
    exact ⟨rfl, fun q => by simp⟩
  · intro data hcg htr hsb hcs
    unfold search_api
    rw [hcg]
    unfold sa_body
    simp only [htr, Bool.false_eq_true, if_false, reduceIte]
    rw [hsb]
    dsimp only
    rw [hcs]
    rfl
  · intro hql hne hlen hsm hcg
    unfold deep_research
    rw [hql]
    simp only [hne, Bool.false_eq_true, if_false, reduceIte, hsm, Bool.not_true]
    rw [if_neg hlen, hcg]
    exact ⟨rfl, fun q => by simp⟩

/-- A `/search-api` world whose cache store raises on `set`. -/
def w_sa_set_down : SAWorld :=
  { cacheGet := .ok none, cacheSet := .error (.cacheError "disk full"),
    searchBackend := .ok sd_empty, rerankFn := id }

/-- A `/deep-research` world whose cache store raises on `get`. -/
def w_dr_down : DRWorld :=
  { cacheGet := .error (.cacheError "disk failure"), cacheSet := .ok (),
    inner := fun _ => w_sf_triv, sched := [] }

/-- Witness for C9 (amended): concrete cache failures on get and on set. -/
theorem c9_cache_failure_not_fail_open_witness :
    ((search_api rq_sa_base w_sa_cache_down).1 = .error (.cacheError "disk failure") ∧
      Effect.network_search "x" ∉ (search_api rq_sa_base w_sa_cache_down).2) ∧
    (search_api rq_sa_base w_sa_set_down).1 =
      .error (.httpException 500 ("Internal error: " ++ "disk full")) ∧
    ((deep_research dr_ab w_dr_down).1 = .error (.cacheError "disk failure") ∧
      Effect.network_search "a" ∉ (deep_research dr_ab w_dr_down).2) :=
  ⟨⟨((c9_cache_failure_not_fail_open rq_sa_base w_sa_cache_down
        (.cacheError "disk failure") "disk full" dr_ab w_dr_down ["a", "b"]).1 rfl).1,
    ((c9_cache_failure_not_fail_open rq_sa_base w_sa_cache_down
        (.cacheError "disk failure") "disk full" dr_ab w_dr_down ["a", "b"]).1 rfl).2 "x"⟩,
   (c9_cache_failure_not_fail_open rq_sa_base w_sa_set_down
        (.cacheError "disk failure") "disk full" dr_ab w_dr_down ["a", "b"]).2.1
      sd_empty rfl rfl rfl rfl,
   ⟨((c9_cache_failure_not_fail_open rq_sa_base w_sa_cache_down
        (.cacheError "disk failure") "disk full" dr_ab w_dr_down ["a", "b"]).2.2
        (by decide) rfl (by decide) rfl rfl).1,
    ((c9_cache_failure_not_fail_open rq_sa_base w_sa_cache_down
        (.cacheError "disk failure") "disk full" dr_ab w_dr_down ["a", "b"]).2.2
        (by decide) rfl (by decide) rfl rfl).2 "a"⟩⟩

/-! ## C4: eager validation, and what status it actually produces -/

/-- A healthy `/search-api` world. -/
def w_sa_ok : SAWorld :=
  { cacheGet := .ok none, cacheSet := .ok (), searchBackend := .ok sd_empty,
    rerankFn := id }

/-- `/search-api` request with an invalid `time_range`. -/
def rq_sa_bad_tr : SearchApiRequest := { rq_sa_base with time_range := some "hourly" }

/-- `/search-and-fetch` request with an invalid `time_range`. -/
def rq_sf_bad_tr : SFRequest := { rq_sf_base with time_range := some "hourly" }

/-- A baseline `/fetch` request. -/
def rq_fu_base : FetchUrlRequest :=
  { url := "https://example.com", format := "text", include_links := true,
    include_images := true, max_content_length := 100000,
    extraction_mode := "trafilatura", stealth_mode := "off", auto_bypass := false }

/-- `/fetch` request whose URL has no scheme. -/
def rq_fu_bad_url : FetchUrlRequest := { rq_fu_base with url := "example.com" }

/-- `/fetch` request with an invalid `stealth_mode`. -/
def rq_fu_bad_sm : FetchUrlRequest := { rq_fu_base with stealth_mode := "turbo" }

/-- `/fetch` world where `urlparse` finds no scheme/netloc. -/
def w_fu_bad_url : FUWorld :=
  { url_ok := false, advRes := .error (.otherError "unreachable"), content := "" }

/-- `/fetch` world with a parseable URL. -/
def w_fu_ok_url : FUWorld :=
  { url_ok := true, advRes := .error (.otherError "unreachable"), content := "" }

/-- C4, evaluated at the failing inputs: each invalid enumerated or
malformed parameter is rejected eagerly — no network effect is recorded —
but the `raise HTTPException(400)` sits inside the endpoint's `try`, whose
`except Exception` catch-all swallows it and re-raises a 500.  The client
therefore sees HTTP 500, not the 400 the code constructs. -/
theorem c4_validation_rejects_before_network_but_as_500 :
    (search_api rq_sa_bad_tr w_sa_ok).1 =
      .error (.httpException 500
        ("Internal error: " ++ pyExcStr (.httpException 400 invalid_tr_detail))) ∧
    (search_api rq_sa_bad_tr w_sa_ok).2 =
      [Effect.cache_get (search_cache_key rq_sa_bad_tr)] ∧
    (search_and_fetch rq_sf_bad_tr w_sf_triv).1 =
      .error (.httpException 500
        ("Internal error: " ++ pyExcStr (.httpException 400 invalid_tr_detail))) ∧
    (search_and_fetch rq_sf_bad_tr w_sf_triv).2 =
      [Effect.cache_get (search_fetch_cache_key rq_sf_bad_tr)] ∧
    (fetch_url rq_fu_bad_url w_fu_bad_url).1 =
      .error (.httpException 500
        ("Error processing content: " ++ pyExcStr (.httpException 400 "Invalid URL format"))) ∧
    (fetch_url rq_fu_bad_url w_fu_bad_url).2 = [] ∧
    (fetch_url rq_fu_bad_sm w_fu_ok_url).1 =
      .error (.httpException 500
        ("Error processing content: " ++ pyExcStr (.httpException 400 invalid_sm_detail))) ∧
    (fetch_url rq_fu_bad_sm w_fu_ok_url).2 = [] ∧
    http_status (search_api rq_sa_bad_tr w_sa_ok).1 = 500 :=
  ⟨rfl, rfl, rfl, rfl, rfl, rfl, rfl, rfl, rfl⟩

/-! ## C5: cache key collisions -/

/-- A `/deep-research` request over the same two queries in the other
order. -/
def dr_ba : DRRequest := { dr_ab with queries := "b,a" }

/-- C5 counterexample: two `/search-and-fetch` requests differing only in
`auto_bypass` and `max_content_length` — parameters that do affect output,
as the two `advanced_fetch` runs show — receive the same cache key; and two
`/deep-research` requests with the same queries in different order (which
changes the response's `queries` and the order of its results) also share
one key, because the key sorts the query list. -/
theorem c5_counterexample :
    search_fetch_cache_key rq_sf_base =
      search_fetch_cache_key
        { rq_sf_base with auto_bypass := true, max_content_length := 5 } ∧
    (advanced_fetch "u" "low" false sf_demo stf_demo dp_medium_ok).toOption.map
      (fun p => p.1.fetch_method) = some "stealth_low" ∧
    (advanced_fetch "u" "low" true sf_demo stf_demo dp_medium_ok).toOption.map
      (fun p => p.1.fetch_method) = some "stealth_medium_auto" ∧
    deep_research_cache_key ["a", "b"] 3 none 30000 "off" =
      deep_research_cache_key ["b", "a"] 3 none 30000 "off" ∧
    (deep_research dr_ab w_dr_two).1.toOption.map (fun r => r.queries) =
      some ["a", "b"] ∧
    (deep_research dr_ba w_dr_two).1.toOption.map (fun r => r.queries) =
      some ["b", "a"] :=
  ⟨rfl, rfl, rfl, by decide, by decide, by decide⟩

/-- C5 amended: the `/search-and-fetch` key is a function of only (query,
num_results, categories, language, format, time_range, rerank,
stealth_mode) — it ignores `auto_bypass` and `max_content_length`; the
`/deep-research` key sorts the query list, so any permutation of the
queries yields the same key.  Requests differing only in those respects can
be served each other's cached responses. -/
theorem c5_amended (r1 r2 : SFRequest) (ql1 ql2 : List String) (breadth : Nat)
    (tr : Option String) (mcl : Nat) (sm : String) :
    (r1.query = r2.query → r1.num_results = r2.num_results →
     r1.categories = r2.categories → r1.language = r2.language →
     r1.format = r2.format → r1.time_range = r2.time_range →
     r1.rerank = r2.rerank → r1.stealth_mode = r2.stealth_mode →
     search_fetch_cache_key r1 = search_fetch_cache_key r2) ∧
    (List.Perm ql1 ql2 →
     deep_research_cache_key ql1 breadth tr mcl sm =
       deep_research_cache_key ql2 breadth tr mcl sm) := by
  constructor
  · intro h1 h2 h3 h4 h5 h6 h7 h8
    unfold search_fetch_cache_key
    rw [h1, h2, h3, h4, h5, h6, h7, h8]
  · intro hp
    unfold deep_research_cache_key
    rw [py_sorted_perm_eq _ _ hp]

/-- Witness for C5 (amended): concrete instances of both invariances. -/
theorem c5_amended_witness :
    search_fetch_cache_key rq_sf_base =
      search_fetch_cache_key { rq_sf_base with auto_bypass := true } ∧
    deep_research_cache_key ["b", "a"] 3 none 30000 "off" =
      deep_research_cache_key ["a", "b"] 3 none 30000 "off" :=
  ⟨(c5_amended rq_sf_base { rq_sf_base with auto_bypass := true }
      ["b", "a"] ["a", "b"] 3 none 30000 "off").1 rfl rfl rfl rfl rfl rfl rfl rfl,
   (c5_amended rq_sf_base { rq_sf_base with auto_bypass := true }
      ["b", "a"] ["a", "b"] 3 none 30000 "off").2 (by decide)⟩

end Miyami
